import Mathlib

/-!
Shallow embedding of the interactive 3D product viewer
(`threejs/js/interaction.js`, `threejs/js/cameraAnimation.js`,
`threejs/js/createProduct.js`, `threejs/js/main.js`).

Conventions of the embedding:

* All numeric quantities that are IEEE doubles in the source are modelled
  as rationals (`ℚ`).  The transcendental functions of the host math
  library (`Math.sin`, `Math.cos`, `Math.atan2`, `Math.sqrt`, `Math.PI`)
  are modelled by an abstract record `MathOps` of rational functions;
  theorems that need analytic facts about them (periodicity, the
  Pythagorean identity) take those facts as explicit hypotheses.

* JavaScript objects with reference identity (the `THREE.Material`
  instances) are modelled by a heap: a list of `(reference, properties)`
  pairs together with a fresh-reference counter.  `material.clone()`
  allocates a fresh reference carrying a copy of the properties, exactly
  as in three.js.

* DOM side effects are modelled by boolean fields of the state
  (`panelVisible`, `cursorPointer`, `controlsEnabled`); `setTimeout` /
  `clearTimeout` are modelled by a single pending-timer slot plus an
  explicit `fireTimer` transition (the source always clears or
  overwrites the single `interactionTimeout` handle before arming a new
  one along the paths modelled here).
-/

namespace ProductViewer

/-- Abstract host math library over the rationals. -/
structure MathOps where
  sin : ℚ → ℚ
  cos : ℚ → ℚ
  atan2 : ℚ → ℚ → ℚ
  sqrt : ℚ → ℚ
  pi : ℚ

/-- `THREE.Vector3` with rational components. -/
structure Vec3 where
  x : ℚ
  y : ℚ
  z : ℚ
deriving DecidableEq, Repr

/-- `Vector3.multiplyScalar`. -/
def Vec3.smul (v : Vec3) (k : ℚ) : Vec3 := ⟨v.x * k, v.y * k, v.z * k⟩

/-- `Vector3.lerpVectors(a, b, t)`. -/
def Vec3.lerpVectors (a b : Vec3) (t : ℚ) : Vec3 :=
  ⟨a.x + (b.x - a.x) * t, a.y + (b.y - a.y) * t, a.z + (b.z - a.z) * t⟩

/-- Association-list lookup (used for the material heap and for the
`originalMaterials` `Map`; insertion conses at the front, so the first
hit is the most recent binding, matching `Map.set` overwrite). -/
def assocFind {α : Type} (l : List (Nat × α)) (k : Nat) : Option α :=
  match l with
  | [] => none
  | (k', v) :: rest => if k' = k then some v else assocFind rest k

namespace Interaction

/-- The mutable properties of a `THREE.MeshStandardMaterial` that the
interaction code reads or writes.  Emissive colors are hex values;
three.js defaults are black emissive with intensity 1. -/
structure MatProps where
  color : Nat
  roughness : ℚ
  metalness : ℚ
  emissive : Nat
  emissiveIntensity : ℚ
deriving DecidableEq, Repr

/-- One interactive mesh (`productParts` element): its `uuid`, the heap
reference of its current `material`, its `scale`, and the `userData`
fields touched by `interaction.js`. -/
structure Part where
  uuid : Nat
  material : Nat
  scale : Vec3
  originalScale : Option Vec3
  hovering : Bool
  pulsing : Bool
  pulseTime : ℚ
  hoverTime : ℚ
deriving DecidableEq, Repr

/-- The state owned by `InteractionManager` (plus the material heap). -/
structure IState where
  heap : List (Nat × MatProps)
  nextRef : Nat
  parts : List Part
  hoveredObject : Option Nat
  selectedObject : Option Nat
  originalMaterials : List (Nat × Nat)
  panelVisible : Bool
  cursorPointer : Bool
deriving DecidableEq, Repr

/-- Heap read: the properties stored at a material reference. -/
def getProps (s : IState) (r : Nat) : Option MatProps := assocFind s.heap r

/-- The first part with the given uuid (uuids are unique in the source;
`productParts` mutation always goes through the mesh object itself, which
this embedding renders as an update of every part with that uuid). -/
def getPart (s : IState) (u : Nat) : Option Part :=
  s.parts.find? (fun p => p.uuid == u)

/-- In-place mutation of the mesh with uuid `u`. -/
def updatePart (s : IState) (u : Nat) (f : Part → Part) : IState :=
  { s with parts := s.parts.map (fun p => if p.uuid = u then f p else p) }

/-- `material.clone()`: allocate a fresh reference with copied
properties.  A clone of a dangling reference cannot happen in the
source (the map is populated for every part at construction); it is
modelled as returning the argument unchanged. -/
def cloneMat (s : IState) (r : Nat) : IState × Nat :=
  match assocFind s.heap r with
  | none => (s, r)
  | some props =>
      ({ s with heap := (s.nextRef, props) :: s.heap, nextRef := s.nextRef + 1 }, s.nextRef)

/-- Write the emissive color and intensity of the material at `r`
(`mat.emissive = new THREE.Color(c); mat.emissiveIntensity = i`). -/
def setEmissive (s : IState) (r : Nat) (c : Nat) (i : ℚ) : IState :=
  { s with heap := s.heap.map (fun e =>
      if e.1 = r then (e.1, { e.2 with emissive := c, emissiveIntensity := i }) else e) }

/-- `InteractionManager.storeMaterials`, one part:
`originalMaterials.set(part.uuid, part.material.clone())`. -/
def storeMaterialsStep (s : IState) (p : Part) : IState :=
  let (s1, r) := cloneMat s p.material
  { s1 with originalMaterials := (p.uuid, r) :: s1.originalMaterials }

/-- `InteractionManager.storeMaterials`. -/
def storeMaterials (s : IState) : IState :=
  s.parts.foldl storeMaterialsStep s

/-- `InteractionManager.applyHoverEffect`.  Bails out on the selected
object; otherwise clones the stored original material, tints it blue
with intensity 0.4, records the original scale on first use, scales the
mesh by 1.05 and raises the hover flags. -/
def applyHoverEffect (s : IState) (u : Nat) : IState :=
  if s.selectedObject = some u then s
  else
    match assocFind s.originalMaterials u with
    | none => s
    | some r =>
        let c := cloneMat s r
        let s2 := setEmissive c.1 c.2 0x4444FF (2/5)
        updatePart s2 u (fun p =>
          { p with material := c.2,
                   originalScale := some (p.originalScale.getD p.scale),
                   scale := p.scale.smul (21/20),
                   hovering := true,
                   hoverTime := 0 })

/-- `InteractionManager.applySelectionEffect`: clone of the stored
original, blue emissive with intensity 0.5, hover flag dropped. -/
def applySelectionEffect (s : IState) (u : Nat) : IState :=
  match assocFind s.originalMaterials u with
  | none => s
  | some r =>
      let c := cloneMat s r
      let s2 := setEmissive c.1 c.2 0x4444FF (1/2)
      updatePart s2 u (fun p => { p with material := c.2, hovering := false })

/-- `InteractionManager.clearHover`: when something other than the
selected object is hovered, hand it back the stored material reference,
restore its recorded scale and drop the hover flag; always reset the
cursor. -/
def clearHover (s : IState) : IState :=
  let s' :=
    match s.hoveredObject with
    | none => s
    | some h =>
        if s.selectedObject = some h then s
        else
          let s1 := updatePart s h (fun p =>
            { p with material := (assocFind s.originalMaterials h).getD p.material,
                     scale := p.originalScale.getD p.scale,
                     hovering := false })
          { s1 with hoveredObject := none }
  { s' with cursorPointer := false }

/-- `InteractionManager.clearSelectionEffect`. -/
def clearSelectionEffect (s : IState) (u : Nat) : IState :=
  updatePart s u (fun p =>
    { p with material := (assocFind s.originalMaterials u).getD p.material,
             scale := p.originalScale.getD p.scale,
             hovering := false })

/-- `InteractionManager.addPulseAnimation`. -/
def addPulseAnimation (s : IState) (u : Nat) : IState :=
  updatePart s u (fun p =>
    { p with originalScale := some (p.originalScale.getD p.scale),
             pulsing := true,
             pulseTime := 0 })

/-- `InteractionManager.removePulseAnimation`. -/
def removePulseAnimation (s : IState) (u : Nat) : IState :=
  updatePart s u (fun p =>
    if p.pulsing then
      { p with pulsing := false, scale := p.originalScale.getD p.scale }
    else p)

/-- `InteractionManager.deselectObject`. -/
def deselectObject (s : IState) : IState :=
  let s' :=
    match s.selectedObject with
    | none => s
    | some v =>
        let s1 := clearSelectionEffect s v
        let s2 := removePulseAnimation s1 v
        { s2 with selectedObject := none }
  { s' with panelVisible := false }

/-- `InteractionManager.selectObject`. -/
def selectObject (s : IState) (u : Nat) : IState :=
  let s1 := deselectObject s
  let s2 := { s1 with selectedObject := some u }
  let s3 := applySelectionEffect s2 u
  let s4 := { s3 with panelVisible := true }
  addPulseAnimation s4 u

/-- `InteractionManager.handleHover`, with the raycast outcome
(`intersects[0].object`, or nothing) supplied as `hit`. -/
def handleHover (s : IState) (hit : Option Nat) : IState :=
  match hit with
  | some u =>
      if s.hoveredObject = some u then s
      else
        let s1 := clearHover s
        let s2 := { s1 with hoveredObject := some u }
        let s3 := applyHoverEffect s2 u
        { s3 with cursorPointer := true }
  | none => clearHover s

/-- `InteractionManager.handleClick`, with the raycast outcome supplied. -/
def handleClick (s : IState) (hit : Option Nat) : IState :=
  match hit with
  | some u => selectObject s u
  | none => deselectObject s

/-- One `productParts.forEach` iteration of
`InteractionManager.updatePulseAnimations`: the pulse branch (with its
inlined `removePulseAnimation` once `pulseTime` passes 6280) followed by
the hover-breathing branch. -/
def pulsePartStep (M : MathOps) (dt : ℚ) (p : Part) : Part :=
  let p1 :=
    if p.pulsing then
      let t := p.pulseTime + dt
      let pulseScale := 1 + M.sin (t * (1/100)) * (1/20)
      let os := p.originalScale.getD ⟨1, 1, 1⟩
      let p' := { p with pulseTime := t, scale := os.smul pulseScale }
      if t > 6280 then
        { p' with pulsing := false, scale := p'.originalScale.getD p'.scale }
      else p'
    else p
  if p1.hovering && !p1.pulsing then
    let t := p1.hoverTime + dt
    let breathScale := 21/20 + M.sin (t * (1/200)) * (1/100)
    { p1 with hoverTime := t,
              scale := (p1.originalScale.getD ⟨1, 1, 1⟩).smul breathScale }
  else p1

/-- `InteractionManager.updatePulseAnimations` (also
`InteractionManager.update`, which just forwards to it). -/
def updatePulseAnimations (M : MathOps) (s : IState) (dt : ℚ) : IState :=
  { s with parts := s.parts.map (pulsePartStep M dt) }

/-- `InteractionManager.hidePartInfo`. -/
def hidePartInfo (s : IState) : IState := { s with panelVisible := false }

/-- The externally triggered operations of the interaction manager:
pointer moves and clicks (with their raycast outcome), animation frames,
`mouseleave`, and the info-panel close button. -/
inductive IOp where
  | move (hit : Option Nat)
  | click (hit : Option Nat)
  | frame (dt : ℚ)
  | leave
  | closeInfo
deriving DecidableEq, Repr

/-- Dispatch one interaction event. -/
def runOp (M : MathOps) (s : IState) : IOp → IState
  | .move hit => handleHover s hit
  | .click hit => handleClick s hit
  | .frame dt => updatePulseAnimations M s dt
  | .leave => clearHover s
  | .closeInfo => hidePartInfo s

/-- Run a sequence of interaction events. -/
def runOps (M : MathOps) (s : IState) (ops : List IOp) : IState :=
  ops.foldl (runOp M) s

end Interaction

namespace Camera

/-- The two callbacks that `cameraAnimation.js` can leave in the single
`interactionTimeout` slot: the one armed by `onMouseUp` and the one armed
by `onUserInteractionEnd`. -/
inductive TimerKind where
  | mouseUpResume
  | interactionEndResume
deriving DecidableEq, Repr

/-- The state owned by `CameraAnimator` (plus the camera position, the
orbit-controls enabled flag/target, and the last `lookAt` argument). -/
structure CamState where
  cameraPos : Vec3
  lookTarget : Vec3
  target : Vec3
  isAutoRotating : Bool
  rotationSpeed : ℚ
  radius : ℚ
  height : ℚ
  currentAngle : ℚ
  userInteracting : Bool
  pendingTimer : Option TimerKind
  resumeDelay : ℚ
  wasAutoRotatingBeforeInteraction : Bool
  isMouseDown : Bool
  isDragging : Bool
  controlsEnabled : Bool
  controlsTarget : Vec3
  initialPosition : Vec3
  initialAngle : ℚ
  initialRadius : ℚ
  initialHeight : ℚ
deriving DecidableEq, Repr

/-- `CameraAnimator.updateCurrentAngle`: resync angle, planar radius and
height from the camera's actual position. -/
def updateCurrentAngle (M : MathOps) (s : CamState) : CamState :=
  let dx := s.cameraPos.x - s.target.x
  let dz := s.cameraPos.z - s.target.z
  { s with currentAngle := M.atan2 dz dx,
           radius := M.sqrt (dx * dx + dz * dz),
           height := s.cameraPos.y }

/-- The `CameraAnimator` constructor together with `storeInitialState`,
for a camera at `p` and a target `t`: auto-rotation on, 30 deg/s, 3000 ms
resume delay, angle from `atan2`, radius overwritten with the full 3D
`distanceTo` the target, height with the camera's y. -/
def mkCamState (M : MathOps) (p t : Vec3) : CamState :=
  let a := M.atan2 (p.z - t.z) (p.x - t.x)
  let r := M.sqrt ((p.x - t.x) * (p.x - t.x) + (p.y - t.y) * (p.y - t.y)
                   + (p.z - t.z) * (p.z - t.z))
  { cameraPos := p
    lookTarget := t
    target := t
    isAutoRotating := true
    rotationSpeed := 30
    radius := r
    height := p.y
    currentAngle := a
    userInteracting := false
    pendingTimer := none
    resumeDelay := 3000
    wasAutoRotatingBeforeInteraction := false
    isMouseDown := false
    isDragging := false
    controlsEnabled := true
    controlsTarget := t
    initialPosition := p
    initialAngle := a
    initialRadius := r
    initialHeight := p.y }

/-- `CameraAnimator.onMouseDown`. -/
def onMouseDown (s : CamState) (button : Nat) : CamState :=
  if button ≠ 0 then s
  else
    let s1 := { s with isMouseDown := true, isDragging := false }
    if s1.isAutoRotating then
      { s1 with wasAutoRotatingBeforeInteraction := true,
                isAutoRotating := false,
                userInteracting := true,
                pendingTimer := none,
                controlsEnabled := true }
    else s1

/-- `CameraAnimator.onMouseMove`. -/
def onMouseMoveCam (s : CamState) : CamState :=
  if s.isMouseDown then { s with isDragging := true, pendingTimer := none } else s

/-- `CameraAnimator.onMouseUp`: arm the resume timer when the user was
interacting with auto-rotation previously on. -/
def onMouseUp (s : CamState) (button : Nat) : CamState :=
  if button ≠ 0 then s
  else
    let s1 := { s with isMouseDown := false }
    if s1.userInteracting && s1.wasAutoRotatingBeforeInteraction then
      { s1 with pendingTimer := some .mouseUpResume }
    else s1

/-- `CameraAnimator.onMouseLeave`: treated as a left-button mouse up. -/
def onMouseLeave (s : CamState) : CamState :=
  if s.isMouseDown then onMouseUp s 0 else s

/-- The pending `setTimeout` callback firing after `resumeDelay` with no
intervening interaction. -/
def fireTimer (M : MathOps) (s : CamState) : CamState :=
  match s.pendingTimer with
  | none => s
  | some .mouseUpResume =>
      updateCurrentAngle M
        { s with pendingTimer := none,
                 userInteracting := false,
                 isDragging := false,
                 isAutoRotating := true }
  | some .interactionEndResume =>
      let s1 := { s with pendingTimer := none, userInteracting := false }
      if s1.wasAutoRotatingBeforeInteraction then
        updateCurrentAngle M { s1 with isAutoRotating := true }
      else s1

/-- `CameraAnimator.onUserInteractionStart` (orbit-controls `start`). -/
def onUserInteractionStart (M : MathOps) (s : CamState) : CamState :=
  if !s.isAutoRotating then s
  else
    let s1 := { s with userInteracting := true,
                       pendingTimer := none,
                       wasAutoRotatingBeforeInteraction := s.isAutoRotating,
                       isAutoRotating := false }
    let s2 := updateCurrentAngle M s1
    { s2 with controlsEnabled := true }

/-- `CameraAnimator.onUserInteractionEnd` (orbit-controls `end`). -/
def onUserInteractionEnd (s : CamState) : CamState :=
  if !s.userInteracting then s
  else { s with pendingTimer := some .interactionEndResume }

/-- `CameraAnimator.onUserInteractionChange` (orbit-controls `change`). -/
def onUserInteractionChange (M : MathOps) (s : CamState) : CamState :=
  let s1 :=
    if s.userInteracting && s.pendingTimer.isSome then { s with pendingTimer := none }
    else s
  if s1.userInteracting then updateCurrentAngle M s1 else s1

/-- `CameraAnimator.pauseAutoRotation`. -/
def pauseAutoRotation (M : MathOps) (s : CamState) : CamState :=
  let s1 := updateCurrentAngle M { s with isAutoRotating := false }
  { s1 with controlsEnabled := true }

/-- `CameraAnimator.resumeAutoRotation`. -/
def resumeAutoRotation (M : MathOps) (s : CamState) : CamState :=
  updateCurrentAngle M { s with isAutoRotating := true }

/-- `CameraAnimator.toggleAutoRotation`: cancel any pending resume timer,
reset `userInteracting`, flip the rotation state, and record the new
state as the manual override. -/
def toggleAutoRotation (M : MathOps) (s : CamState) : CamState :=
  let s1 := { s with pendingTimer := none, userInteracting := false }
  let s2 := if s1.isAutoRotating then pauseAutoRotation M s1 else resumeAutoRotation M s1
  { s2 with wasAutoRotatingBeforeInteraction := s2.isAutoRotating }

/-- `CameraAnimator.update(deltaTime)` (deltaTime in milliseconds, as
passed by `main.js`).  In the auto-rotating state the controls are
disabled, the angle advances by `(rotationSpeed * π / 180) * (dt / 1000)`
and the camera is placed on the orbit circle looking at the target; in
every other state `controls.update()` runs with the controls enabled
(the orbit-controls library's own camera motion is outside this model). -/
def update (M : MathOps) (s : CamState) (dt : ℚ) : CamState :=
  if s.isAutoRotating && !s.userInteracting && !s.isMouseDown then
    let rotationRadians := (s.rotationSpeed * M.pi / 180) * (dt / 1000)
    let a := s.currentAngle + rotationRadians
    let x := s.target.x + M.cos a * s.radius
    let z := s.target.z + M.sin a * s.radius
    { s with controlsEnabled := false,
             currentAngle := a,
             cameraPos := ⟨x, s.height, z⟩,
             lookTarget := s.target }
  else
    { s with controlsEnabled := true }

/-- `CameraAnimator.animateToPosition` easing: `1 - (1 - progress)^3`. -/
def easeOutCubic (p : ℚ) : ℚ := 1 - (1 - p) ^ 3

/-- `progress = min(elapsed / duration, 1)` with the fixed 1000 ms
duration of `animateToPosition`. -/
def animProgress (elapsed : ℚ) : ℚ := min (elapsed / 1000) 1

/-- Camera position produced by an `animateToPosition` frame at time
`elapsed` since the animation started (each frame recomputes the
position from the captured start position, so a frame depends only on
its own elapsed time). -/
def animPosAt (startPos targetPos : Vec3) (elapsed : ℚ) : Vec3 :=
  Vec3.lerpVectors startPos targetPos (easeOutCubic (animProgress elapsed))

/-- The `onComplete` callback of `CameraAnimator.resetCamera`. -/
def resetOnComplete (s : CamState) : CamState :=
  { s with currentAngle := s.initialAngle,
           radius := s.initialRadius,
           height := s.initialHeight,
           controlsTarget := s.target }

/-- One `requestAnimationFrame` step of `resetCamera`'s animation toward
`initialPosition`, started from camera position `startPos`, evaluated at
`elapsed` milliseconds: position the camera on the eased path, look at
the target, and on reaching progress 1 run the completion callback. -/
def resetAnimFrame (s : CamState) (startPos : Vec3) (elapsed : ℚ) : CamState :=
  let s1 := { s with cameraPos := animPosAt startPos s.initialPosition elapsed,
                     lookTarget := s.target }
  if animProgress elapsed < 1 then s1 else resetOnComplete s1

/-- `CameraAnimator.resetCamera` observed at `elapsed` milliseconds after
the button press (the start position is captured at the press). -/
def resetCameraAt (s : CamState) (elapsed : ℚ) : CamState :=
  resetAnimFrame s s.cameraPos elapsed

/-- The externally triggered events of the camera animator other than
the manual toggle and the reset button: canvas mouse events, the three
orbit-controls events, a render frame, and the pending timer firing. -/
inductive CamEvent where
  | mouseDown (button : Nat)
  | mouseMove
  | mouseUp (button : Nat)
  | mouseLeave
  | ctrlStart
  | ctrlEnd
  | ctrlChange
  | frame (dt : ℚ)
  | timerFire
deriving DecidableEq, Repr

/-- Dispatch one camera event. -/
def runCamEvent (M : MathOps) (s : CamState) : CamEvent → CamState
  | .mouseDown b => onMouseDown s b
  | .mouseMove => onMouseMoveCam s
  | .mouseUp b => onMouseUp s b
  | .mouseLeave => onMouseLeave s
  | .ctrlStart => onUserInteractionStart M s
  | .ctrlEnd => onUserInteractionEnd s
  | .ctrlChange => onUserInteractionChange M s
  | .frame dt => update M s dt
  | .timerFire => fireTimer M s

/-- Run a sequence of camera events. -/
def runCamEvents (M : MathOps) (s : CamState) (evs : List CamEvent) : CamState :=
  evs.foldl (runCamEvent M) s

end Camera

/-! ### Concrete sample data

Concrete instances used to evaluate the development on closed inputs:
a math record with constant trig functions (trivially periodic and
satisfying the Pythagorean identity), the builder's `wood` and `cushion`
materials from `createProduct.js`, and small scenes. -/

/-- A concrete `MathOps`: `cos` constantly 1 and `sin` constantly 0. -/
def M0 : MathOps :=
  { sin := fun _ => 0
    cos := fun _ => 1
    atan2 := fun _ _ => 0
    sqrt := fun _ => 0
    pi := 22 / 7 }

namespace Interaction

/-- `ProductCreator.createMaterials().wood`. -/
def woodProps : MatProps :=
  { color := 0x8B4513, roughness := 4/5, metalness := 1/10
    emissive := 0, emissiveIntensity := 1 }

/-- `ProductCreator.createMaterials().cushion`. -/
def cushionProps : MatProps :=
  { color := 0x4169E1, roughness := 3/5, metalness := 0
    emissive := 0, emissiveIntensity := 1 }

/-- A fresh interactive part: unit scale, untouched `userData`. -/
def freshPart (u : Nat) (mat : Nat) : Part :=
  { uuid := u, material := mat, scale := ⟨1, 1, 1⟩, originalScale := none
    hovering := false, pulsing := false, pulseTime := 0, hoverTime := 0 }

/-- One wooden part sharing the builder's base material reference 0. -/
def sampleState0 : IState :=
  { heap := [(0, woodProps)], nextRef := 1
    parts := [freshPart 0 0]
    hoveredObject := none, selectedObject := none
    originalMaterials := [], panelVisible := false, cursorPointer := false }

/-- `sampleState0` after the constructor's `storeMaterials` call. -/
def sampleInit : IState := storeMaterials sampleState0

/-- Two parts (wood and cushion) sharing the builder's base materials. -/
def sampleTwo0 : IState :=
  { heap := [(0, woodProps), (1, cushionProps)], nextRef := 2
    parts := [freshPart 0 0, freshPart 1 1]
    hoveredObject := none, selectedObject := none
    originalMaterials := [], panelVisible := false, cursorPointer := false }

/-- `sampleTwo0` after `storeMaterials`. -/
def sampleTwoInit : IState := storeMaterials sampleTwo0

/-- `sampleTwoInit` after clicking part 1 (so part 1 is selected). -/
def sampleTwoSel : IState := handleClick sampleTwoInit (some 1)

end Interaction

namespace Camera

/-- An auto-rotating camera state: target `(0,1,0)`, radius 7, height 3,
angle 0, camera placed on its orbit circle as computed with `M0`. -/
def autoSample : CamState :=
  { cameraPos := ⟨7, 3, 0⟩
    lookTarget := ⟨0, 1, 0⟩
    target := ⟨0, 1, 0⟩
    isAutoRotating := true
    rotationSpeed := 30
    radius := 7
    height := 3
    currentAngle := 0
    userInteracting := false
    pendingTimer := none
    resumeDelay := 3000
    wasAutoRotatingBeforeInteraction := false
    isMouseDown := false
    isDragging := false
    controlsEnabled := false
    controlsTarget := ⟨0, 1, 0⟩
    initialPosition := ⟨5, 3, 5⟩
    initialAngle := 1/4
    initialRadius := 7
    initialHeight := 3 }

/-- `autoSample` with the mouse held down (manual-control mode). -/
def manualSample : CamState := { autoSample with isMouseDown := true }

end Camera

/-! ### Verification predicates -/

namespace Interaction

/-- Every material reference in the heap is below the fresh counter, so
`clone()` always allocates an unused reference. -/
def heapFresh (s : IState) : Prop := ∀ e ∈ s.heap, e.1 < s.nextRef

instance (s : IState) : Decidable (heapFresh s) :=
  List.decidableBAll _ s.heap

/-- `t` extends `s` conservatively: the `originalMaterials` map is
untouched, references are only allocated (never recycled), and the
properties of every previously allocated material are unchanged. -/
def HeapExt (s t : IState) : Prop :=
  t.originalMaterials = s.originalMaterials ∧
  s.nextRef ≤ t.nextRef ∧
  (∀ r, r < s.nextRef → getProps t r = getProps s r) ∧
  (heapFresh s → heapFresh t)

end Interaction

/-! ### Basic lemmas about the association list and part updates -/

@[simp] theorem assocFind_nil {α : Type} (k : Nat) :
    assocFind ([] : List (Nat × α)) k = none := rfl

@[simp] theorem assocFind_cons {α : Type} (e : Nat × α)
    (rest : List (Nat × α)) (k : Nat) :
    assocFind (e :: rest) k = if e.1 = k then some e.2 else assocFind rest k := rfl

theorem assocFind_map_keyed {α : Type} (r : Nat) (f : α → α) :
    ∀ (l : List (Nat × α)) (k : Nat), k ≠ r →
      assocFind (l.map (fun e => if e.1 = r then (e.1, f e.2) else e)) k = assocFind l k := by
  intro l
  induction l with
  | nil => intro k _; rfl
  | cons e rest ih =>
      intro k hk
      by_cases he : e.1 = r
      · have hrk : ¬r = k := fun h => hk h.symm
        simp [he, hrk, ih k hk]
      · by_cases hek : e.1 = k
        · simp [he, hek, hk]
        · simp [he, hek, ih k hk]

theorem assocFind_map_keyed_self {α : Type} (r : Nat) (f : α → α) :
    ∀ (l : List (Nat × α)),
      assocFind (l.map (fun e => if e.1 = r then (e.1, f e.2) else e)) r
        = (assocFind l r).map f := by
  intro l
  induction l with
  | nil => rfl
  | cons e rest ih =>
      by_cases he : e.1 = r
      · simp [he]
      · simp [he, ih]

theorem map_keyed_of_not_found {α : Type} (r : Nat) (f : α → α) :
    ∀ (l : List (Nat × α)), assocFind l r = none →
      l.map (fun e => if e.1 = r then (e.1, f e.2) else e) = l := by
  intro l
  induction l with
  | nil => intro _; rfl
  | cons e rest ih =>
      intro h
      simp only [assocFind_cons] at h
      by_cases he : e.1 = r
      · rw [if_pos he] at h
        exact absurd h (by simp)
      · rw [if_neg he] at h
        simp [he, ih h]

theorem find_map_uuid (g : Interaction.Part → Interaction.Part)
    (hg : ∀ q, (g q).uuid = q.uuid) :
    ∀ (l : List Interaction.Part) (u : Nat),
      (l.map g).find? (fun p => p.uuid == u) = (l.find? (fun p => p.uuid == u)).map g := by
  intro l u
  induction l with
  | nil => rfl
  | cons p l ih =>
      by_cases h : p.uuid = u
      · have h1 : ((g p).uuid == u) = true := by simp [hg, h]
        have h2 : (p.uuid == u) = true := by simp [h]
        simp only [List.map_cons, List.find?, h1, h2]
        rfl
      · have h1 : ((g p).uuid == u) = false := by simp [hg, h]
        have h2 : (p.uuid == u) = false := by simp [h]
        simp only [List.map_cons, List.find?, h1, h2]
        exact ih

namespace Interaction

theorem getPart_updatePart_self (s : IState) (u : Nat) (f : Part → Part)
    (hf : ∀ q, (f q).uuid = q.uuid) :
    getPart (updatePart s u f) u = (getPart s u).map f := by
  unfold getPart updatePart
  rw [find_map_uuid (fun p => if p.uuid = u then f p else p)
      (fun q => by by_cases h : q.uuid = u <;> simp [h, hf])]
  cases hfind : s.parts.find? (fun p => p.uuid == u) with
  | none => rfl
  | some q =>
      have hq : q.uuid = u := by simpa using List.find?_some hfind
      simp [hq]

theorem getPart_updatePart_other (s : IState) (v u : Nat) (f : Part → Part)
    (hf : ∀ q, (f q).uuid = q.uuid) (h : u ≠ v) :
    getPart (updatePart s v f) u = getPart s u := by
  unfold getPart updatePart
  rw [find_map_uuid (fun p => if p.uuid = v then f p else p)
      (fun q => by by_cases hq : q.uuid = v <;> simp [hq, hf])]
  cases hfind : s.parts.find? (fun p => p.uuid == u) with
  | none => rfl
  | some q =>
      have hq : q.uuid = u := by simpa using List.find?_some hfind
      simp [hq, h]

theorem getPart_parts_eq {s t : IState} (h : t.parts = s.parts) (u : Nat) :
    getPart t u = getPart s u := by
  unfold getPart
  rw [h]

theorem assocFind_none_of_fresh {l : List (Nat × MatProps)} {n : Nat}
    (h : ∀ e ∈ l, e.1 < n) : assocFind l n = none := by
  induction l with
  | nil => rfl
  | cons e rest ih =>
      have h1 : e.1 < n := h e (List.mem_cons_self e rest)
      simp only [assocFind_cons]
      rw [if_neg (Nat.ne_of_lt h1)]
      exact ih (fun x hx => h x (List.mem_cons_of_mem e hx))

/-! Field-preservation facts for the interaction operations. -/

@[simp] theorem updatePart_heap (s : IState) (u : Nat) (f : Part → Part) :
    (updatePart s u f).heap = s.heap := rfl

@[simp] theorem updatePart_nextRef (s : IState) (u : Nat) (f : Part → Part) :
    (updatePart s u f).nextRef = s.nextRef := rfl

@[simp] theorem updatePart_origMats (s : IState) (u : Nat) (f : Part → Part) :
    (updatePart s u f).originalMaterials = s.originalMaterials := rfl

@[simp] theorem updatePart_hovered (s : IState) (u : Nat) (f : Part → Part) :
    (updatePart s u f).hoveredObject = s.hoveredObject := rfl

@[simp] theorem updatePart_selected (s : IState) (u : Nat) (f : Part → Part) :
    (updatePart s u f).selectedObject = s.selectedObject := rfl

@[simp] theorem updatePart_panel (s : IState) (u : Nat) (f : Part → Part) :
    (updatePart s u f).panelVisible = s.panelVisible := rfl

@[simp] theorem setEmissive_parts (s : IState) (r c : Nat) (i : ℚ) :
    (setEmissive s r c i).parts = s.parts := rfl

@[simp] theorem setEmissive_nextRef (s : IState) (r c : Nat) (i : ℚ) :
    (setEmissive s r c i).nextRef = s.nextRef := rfl

@[simp] theorem setEmissive_origMats (s : IState) (r c : Nat) (i : ℚ) :
    (setEmissive s r c i).originalMaterials = s.originalMaterials := rfl

@[simp] theorem setEmissive_hovered (s : IState) (r c : Nat) (i : ℚ) :
    (setEmissive s r c i).hoveredObject = s.hoveredObject := rfl

@[simp] theorem setEmissive_selected (s : IState) (r c : Nat) (i : ℚ) :
    (setEmissive s r c i).selectedObject = s.selectedObject := rfl

@[simp] theorem setEmissive_panel (s : IState) (r c : Nat) (i : ℚ) :
    (setEmissive s r c i).panelVisible = s.panelVisible := rfl

theorem clearHover_heap (s : IState) : (clearHover s).heap = s.heap := by
  unfold clearHover
  cases s.hoveredObject with
  | none => rfl
  | some h => by_cases hs : s.selectedObject = some h <;> simp [hs]

theorem clearHover_nextRef (s : IState) : (clearHover s).nextRef = s.nextRef := by
  unfold clearHover
  cases s.hoveredObject with
  | none => rfl
  | some h => by_cases hs : s.selectedObject = some h <;> simp [hs]

theorem clearHover_origMats (s : IState) :
    (clearHover s).originalMaterials = s.originalMaterials := by
  unfold clearHover
  cases s.hoveredObject with
  | none => rfl
  | some h => by_cases hs : s.selectedObject = some h <;> simp [hs]

theorem clearHover_selected (s : IState) :
    (clearHover s).selectedObject = s.selectedObject := by
  unfold clearHover
  cases s.hoveredObject with
  | none => rfl
  | some h => by_cases hs : s.selectedObject = some h <;> simp [hs]

theorem clearHover_getPart_of_ne (s : IState) (u : Nat)
    (hhov : s.hoveredObject ≠ some u) :
    getPart (clearHover s) u = getPart s u := by
  unfold clearHover
  cases hh : s.hoveredObject with
  | none => rfl
  | some h =>
      by_cases hs : s.selectedObject = some h
      · simp only [hs, if_pos rfl]
        exact getPart_parts_eq rfl u
      · have hne : u ≠ h := fun he => hhov (by rw [hh, he])
        simp only [hs, if_neg hs]
        exact getPart_updatePart_other s h u _ (fun q => rfl) hne

theorem clearHover_of_selected (s : IState) (u : Nat)
    (hhov : s.hoveredObject = some u) (hsel : s.selectedObject = some u) :
    clearHover s = { s with cursorPointer := false } := by
  unfold clearHover
  simp [hhov, hsel]

theorem clearHover_restore (s : IState) (u : Nat)
    (hhov : s.hoveredObject = some u) (hsel : s.selectedObject ≠ some u) :
    clearHover s =
      { updatePart s u (fun p =>
          { p with material := (assocFind s.originalMaterials u).getD p.material,
                   scale := p.originalScale.getD p.scale,
                   hovering := false }) with
        hoveredObject := none, cursorPointer := false } := by
  unfold clearHover
  simp [hhov, hsel]

theorem cloneMat_found {s : IState} {r : Nat} {props : MatProps}
    (h : assocFind s.heap r = some props) :
    cloneMat s r =
      ({ s with heap := (s.nextRef, props) :: s.heap, nextRef := s.nextRef + 1 },
        s.nextRef) := by
  unfold cloneMat
  rw [h]

theorem applyHoverEffect_selected (s : IState) (u : Nat)
    (hsel : s.selectedObject = some u) : applyHoverEffect s u = s := by
  unfold applyHoverEffect
  rw [if_pos hsel]

theorem setEmissive_clone (s : IState) (props : MatProps) (c : Nat) (i : ℚ) (m : Nat)
    (hnone : assocFind s.heap s.nextRef = none) :
    setEmissive { s with heap := (s.nextRef, props) :: s.heap, nextRef := m }
        s.nextRef c i
      = { s with
          heap := (s.nextRef, { props with emissive := c, emissiveIntensity := i })
                  :: s.heap,
          nextRef := m } := by
  unfold setEmissive
  have htail := map_keyed_of_not_found s.nextRef
    (fun mm => ({ mm with emissive := c, emissiveIntensity := i } : MatProps))
    s.heap hnone
  simp only [List.map_cons]
  rw [htail]
  simp

theorem applyHoverEffect_found (s : IState) (u r : Nat) (props : MatProps)
    (hfr : heapFresh s) (hsel : s.selectedObject ≠ some u)
    (hr : assocFind s.originalMaterials u = some r)
    (hp : assocFind s.heap r = some props) :
    applyHoverEffect s u =
      updatePart
        { s with
          heap := (s.nextRef,
                    { props with emissive := 0x4444FF, emissiveIntensity := 2/5 })
                  :: s.heap,
          nextRef := s.nextRef + 1 }
        u (fun p =>
          { p with material := s.nextRef,
                   originalScale := some (p.originalScale.getD p.scale),
                   scale := p.scale.smul (21/20),
                   hovering := true,
                   hoverTime := 0 }) := by
  have hnone : assocFind s.heap s.nextRef = none :=
    assocFind_none_of_fresh hfr
  unfold applyHoverEffect
  rw [if_neg hsel]
  simp only [hr]
  rw [cloneMat_found hp, setEmissive_clone s props 0x4444FF (2/5) (s.nextRef + 1) hnone]

theorem applySelectionEffect_found (s : IState) (u r : Nat) (props : MatProps)
    (hfr : heapFresh s)
    (hr : assocFind s.originalMaterials u = some r)
    (hp : assocFind s.heap r = some props) :
    applySelectionEffect s u =
      updatePart
        { s with
          heap := (s.nextRef,
                    { props with emissive := 0x4444FF, emissiveIntensity := 1/2 })
                  :: s.heap,
          nextRef := s.nextRef + 1 }
        u (fun p => { p with material := s.nextRef, hovering := false }) := by
  have hnone : assocFind s.heap s.nextRef = none :=
    assocFind_none_of_fresh hfr
  unfold applySelectionEffect
  simp only [hr]
  rw [cloneMat_found hp, setEmissive_clone s props 0x4444FF (1/2) (s.nextRef + 1) hnone]

theorem cloneMat_fst_parts (s : IState) (r : Nat) :
    (cloneMat s r).1.parts = s.parts := by
  unfold cloneMat
  cases assocFind s.heap r <;> rfl

theorem cloneMat_fst_origMats (s : IState) (r : Nat) :
    (cloneMat s r).1.originalMaterials = s.originalMaterials := by
  unfold cloneMat
  cases assocFind s.heap r <;> rfl

theorem cloneMat_fst_panel (s : IState) (r : Nat) :
    (cloneMat s r).1.panelVisible = s.panelVisible := by
  unfold cloneMat
  cases assocFind s.heap r <;> rfl

theorem cloneMat_fst_hovered (s : IState) (r : Nat) :
    (cloneMat s r).1.hoveredObject = s.hoveredObject := by
  unfold cloneMat
  cases assocFind s.heap r <;> rfl

theorem cloneMat_fst_selected (s : IState) (r : Nat) :
    (cloneMat s r).1.selectedObject = s.selectedObject := by
  unfold cloneMat
  cases assocFind s.heap r <;> rfl

theorem applyHoverEffect_hovered (s : IState) (u : Nat) :
    (applyHoverEffect s u).hoveredObject = s.hoveredObject := by
  unfold applyHoverEffect
  by_cases hsel : s.selectedObject = some u
  · rw [if_pos hsel]
  · rw [if_neg hsel]
    cases hr : assocFind s.originalMaterials u with
    | none => rfl
    | some r => simp [cloneMat_fst_hovered]

theorem applyHoverEffect_selObj (s : IState) (u : Nat) :
    (applyHoverEffect s u).selectedObject = s.selectedObject := by
  unfold applyHoverEffect
  by_cases hsel : s.selectedObject = some u
  · rw [if_pos hsel]
  · rw [if_neg hsel]
    cases hr : assocFind s.originalMaterials u with
    | none => rfl
    | some r => simp [cloneMat_fst_selected]

/-! The heap-extension order and its preservation by every operation. -/

theorem HeapExt.refl (s : IState) : HeapExt s s :=
  ⟨rfl, Nat.le_refl _, fun _ _ => rfl, id⟩

theorem HeapExt.trans {s t w : IState} (h1 : HeapExt s t) (h2 : HeapExt t w) :
    HeapExt s w := by
  obtain ⟨m1, n1, p1, f1⟩ := h1
  obtain ⟨m2, n2, p2, f2⟩ := h2
  exact ⟨m2.trans m1, Nat.le_trans n1 n2,
    fun r hr => (p2 r (Nat.lt_of_lt_of_le hr n1)).trans (p1 r hr),
    fun hf => f2 (f1 hf)⟩

theorem HeapExt_of_same {s t : IState} (h1 : t.heap = s.heap)
    (h2 : t.nextRef = s.nextRef)
    (h3 : t.originalMaterials = s.originalMaterials) : HeapExt s t := by
  refine ⟨h3, Nat.le_of_eq h2.symm, fun r _ => ?_, fun hf => ?_⟩
  · unfold getProps
    rw [h1]
  · unfold heapFresh at hf ⊢
    rw [h1, h2]
    exact hf

theorem HeapExt_setEmissive {s t : IState} (h : HeapExt s t) (k c : Nat) (i : ℚ)
    (hk : s.nextRef ≤ k) : HeapExt s (setEmissive t k c i) := by
  obtain ⟨m, n, p, f⟩ := h
  refine ⟨m, n, fun q hq => ?_, fun hf => ?_⟩
  · have hne : q ≠ k := Nat.ne_of_lt (Nat.lt_of_lt_of_le hq hk)
    have h1 := assocFind_map_keyed k
      (fun mm => ({ mm with emissive := c, emissiveIntensity := i } : MatProps))
      t.heap q hne
    exact h1.trans (p q hq)
  · have hft := f hf
    intro e he
    have he2 : e ∈ t.heap.map (fun e0 =>
        if e0.1 = k then
          (e0.1, { e0.2 with emissive := c, emissiveIntensity := i }) else e0) := he
    rcases List.mem_map.1 he2 with ⟨e0, he0, hmap⟩
    have hkey : e.1 = e0.1 := by
      by_cases hc : e0.1 = k
      · simp [hc] at hmap
        rw [← hmap, hc]
      · simp [hc] at hmap
        rw [← hmap]
    show e.1 < t.nextRef
    rw [hkey]
    exact hft e0 he0

theorem HeapExt_cloneSet (s : IState) (r c : Nat) (i : ℚ) :
    HeapExt s (setEmissive (cloneMat s r).1 (cloneMat s r).2 c i) := by
  cases hp : assocFind s.heap r with
  | none =>
      have hclone : cloneMat s r = (s, r) := by
        unfold cloneMat
        rw [hp]
      rw [hclone]
      refine HeapExt_of_same ?_ rfl rfl
      exact map_keyed_of_not_found r
        (fun mm => ({ mm with emissive := c, emissiveIntensity := i } : MatProps))
        s.heap hp
  | some props =>
      have h1 : HeapExt s (cloneMat s r).1 := by
        rw [cloneMat_found hp]
        refine ⟨rfl, Nat.le_succ _, fun q hq => ?_, fun hf => ?_⟩
        · show assocFind ((s.nextRef, props) :: s.heap) q = assocFind s.heap q
          simp only [assocFind_cons]
          rw [if_neg (Nat.ne_of_lt hq).symm]
        · intro e he
          rcases List.mem_cons.1 he with h | h
          · rw [h]
            exact Nat.lt_succ_self _
          · exact Nat.lt_succ_of_lt (hf e h)
      have h2 : s.nextRef ≤ (cloneMat s r).2 := by
        rw [cloneMat_found hp]
      exact HeapExt_setEmissive h1 (cloneMat s r).2 c i h2

theorem HeapExt_applyHoverEffect (s : IState) (u : Nat) :
    HeapExt s (applyHoverEffect s u) := by
  unfold applyHoverEffect
  by_cases hsel : s.selectedObject = some u
  · rw [if_pos hsel]
    exact HeapExt.refl s
  · rw [if_neg hsel]
    cases hr : assocFind s.originalMaterials u with
    | none => exact HeapExt.refl s
    | some r =>
        refine (HeapExt_cloneSet s r 0x4444FF (2/5)).trans ?_
        exact HeapExt_of_same rfl rfl rfl

theorem HeapExt_applySelectionEffect (s : IState) (u : Nat) :
    HeapExt s (applySelectionEffect s u) := by
  unfold applySelectionEffect
  cases hr : assocFind s.originalMaterials u with
  | none => exact HeapExt.refl s
  | some r =>
      refine (HeapExt_cloneSet s r 0x4444FF (1/2)).trans ?_
      exact HeapExt_of_same rfl rfl rfl

theorem HeapExt_clearHover (s : IState) : HeapExt s (clearHover s) :=
  HeapExt_of_same (clearHover_heap s) (clearHover_nextRef s) (clearHover_origMats s)

theorem HeapExt_deselectObject (s : IState) : HeapExt s (deselectObject s) := by
  unfold deselectObject
  cases s.selectedObject with
  | none => exact HeapExt_of_same rfl rfl rfl
  | some v => exact HeapExt_of_same rfl rfl rfl

theorem HeapExt_selectObject (s : IState) (u : Nat) :
    HeapExt s (selectObject s u) := by
  unfold selectObject
  refine (HeapExt_deselectObject s).trans ?_
  refine HeapExt.trans (t := { deselectObject s with selectedObject := some u }) ?_ ?_
  · exact HeapExt_of_same rfl rfl rfl
  · refine (HeapExt_applySelectionEffect _ u).trans ?_
    exact HeapExt_of_same rfl rfl rfl

theorem HeapExt_runOp (M : MathOps) (s : IState) (o : IOp) :
    HeapExt s (runOp M s o) := by
  cases o with
  | move hit =>
      cases hit with
      | some u =>
          show HeapExt s (handleHover s (some u))
          simp only [handleHover]
          by_cases hh : s.hoveredObject = some u
          · rw [if_pos hh]
            exact HeapExt.refl s
          · rw [if_neg hh]
            refine (HeapExt_clearHover s).trans ?_
            refine HeapExt.trans (t := { clearHover s with hoveredObject := some u }) ?_ ?_
            · exact HeapExt_of_same rfl rfl rfl
            · refine (HeapExt_applyHoverEffect _ u).trans ?_
              exact HeapExt_of_same rfl rfl rfl
      | none => exact HeapExt_clearHover s
  | click hit =>
      cases hit with
      | some u => exact HeapExt_selectObject s u
      | none => exact HeapExt_deselectObject s
  | frame dt => exact HeapExt_of_same rfl rfl rfl
  | leave => exact HeapExt_clearHover s
  | closeInfo => exact HeapExt_of_same rfl rfl rfl

theorem HeapExt_runOps (M : MathOps) (ops : List IOp) :
    ∀ s : IState, HeapExt s (runOps M s ops) := by
  induction ops with
  | nil => exact fun s => HeapExt.refl s
  | cons o rest ih =>
      intro s
      exact (HeapExt_runOp M s o).trans (ih (runOp M s o))

/-! Pulse-animation step facts. -/

theorem pulsePartStep_uuid (M : MathOps) (dt : ℚ) (q : Part) :
    (pulsePartStep M dt q).uuid = q.uuid := by
  unfold pulsePartStep
  by_cases h1 : q.pulsing <;>
    by_cases h2 : q.pulseTime + dt > 6280 <;>
      simp [h1, h2] <;> split <;> rfl

theorem getPart_updatePulse (M : MathOps) (s : IState) (dt : ℚ) (u : Nat) :
    getPart (updatePulseAnimations M s dt) u = (getPart s u).map (pulsePartStep M dt) := by
  unfold getPart updatePulseAnimations
  exact find_map_uuid (pulsePartStep M dt) (pulsePartStep_uuid M dt) s.parts u

theorem pulsePartStep_pulsing_le (M : MathOps) (dt : ℚ) (p : Part)
    (hp : p.pulsing = true) (hhov : p.hovering = false)
    (hle : p.pulseTime + dt ≤ 6280) :
    pulsePartStep M dt p =
      { p with pulseTime := p.pulseTime + dt,
               scale := (p.originalScale.getD ⟨1, 1, 1⟩).smul
                          (1 + M.sin ((p.pulseTime + dt) * (1/100)) * (1/20)) } := by
  have hnot : ¬p.pulseTime + dt > 6280 := not_lt.mpr hle
  unfold pulsePartStep
  simp [hp, hhov, hnot]

theorem pulsePartStep_pulsing_gt (M : MathOps) (dt : ℚ) (p : Part) (os : Vec3)
    (hp : p.pulsing = true) (hhov : p.hovering = false)
    (hos : p.originalScale = some os)
    (hgt : p.pulseTime + dt > 6280) :
    pulsePartStep M dt p =
      { p with pulseTime := p.pulseTime + dt, scale := os, pulsing := false } := by
  unfold pulsePartStep
  simp [hp, hhov, hgt, hos]

theorem assocFind_lt_of_fresh {l : List (Nat × MatProps)} {n k : Nat} {v : MatProps}
    (hf : ∀ e ∈ l, e.1 < n) (h : assocFind l k = some v) : k < n := by
  induction l with
  | nil => exact absurd h (by simp)
  | cons e rest ih =>
      simp only [assocFind_cons] at h
      by_cases he : e.1 = k
      · exact he ▸ hf e (List.mem_cons_self e rest)
      · rw [if_neg he] at h
        exact ih (fun x hx => hf x (List.mem_cons_of_mem e hx)) h

theorem smul_2120_ne_self (v : Vec3) (hv : v ≠ ⟨0, 0, 0⟩) :
    v.smul (21/20) ≠ v := by
  intro h
  apply hv
  cases v with
  | mk x y z =>
      unfold Vec3.smul at h
      simp only [Vec3.mk.injEq] at h ⊢
      obtain ⟨h1, h2, h3⟩ := h
      refine ⟨by linarith, by linarith, by linarith⟩

theorem applyHoverEffect_getPart_other (s : IState) (w u : Nat) (hne : u ≠ w) :
    getPart (applyHoverEffect s w) u = getPart s u := by
  unfold applyHoverEffect
  by_cases hselw : s.selectedObject = some w
  · rw [if_pos hselw]
  · rw [if_neg hselw]
    cases hr : assocFind s.originalMaterials w with
    | none => rfl
    | some r =>
        simp only
        refine (getPart_updatePart_other _ w u _ ?_ hne).trans ?_
        · intro q
          rfl
        · exact getPart_parts_eq (by rw [setEmissive_parts, cloneMat_fst_parts]) u

theorem applySelectionEffect_getPart_other (s : IState) (w u : Nat) (hne : u ≠ w) :
    getPart (applySelectionEffect s w) u = getPart s u := by
  unfold applySelectionEffect
  cases hr : assocFind s.originalMaterials w with
  | none => rfl
  | some r =>
      simp only
      refine (getPart_updatePart_other _ w u _ ?_ hne).trans ?_
      · intro q
        rfl
      · exact getPart_parts_eq (by rw [setEmissive_parts, cloneMat_fst_parts]) u

theorem applySelectionEffect_selObj (s : IState) (u : Nat) :
    (applySelectionEffect s u).selectedObject = s.selectedObject := by
  unfold applySelectionEffect
  cases hr : assocFind s.originalMaterials u with
  | none => rfl
  | some r => simp [cloneMat_fst_selected]

theorem applySelectionEffect_panel (s : IState) (u : Nat) :
    (applySelectionEffect s u).panelVisible = s.panelVisible := by
  unfold applySelectionEffect
  cases hr : assocFind s.originalMaterials u with
  | none => rfl
  | some r => simp [cloneMat_fst_panel]

theorem deselect_restore (s : IState) (v rv : Nat) (q : Part)
    (hv : s.selectedObject = some v)
    (hq : getPart s v = some q)
    (hrv : assocFind s.originalMaterials v = some rv) :
    getPart (deselectObject s) v
      = some { q with material := rv, scale := q.originalScale.getD q.scale,
                      hovering := false, pulsing := false } ∧
    (deselectObject s).selectedObject = none ∧
    (deselectObject s).panelVisible = false ∧
    (deselectObject s).heap = s.heap ∧
    (deselectObject s).nextRef = s.nextRef ∧
    (deselectObject s).originalMaterials = s.originalMaterials ∧
    (∀ w, w ≠ v → getPart (deselectObject s) w = getPart s w) := by
  have hd : deselectObject s =
      { removePulseAnimation (clearSelectionEffect s v) v with
        selectedObject := none, panelVisible := false } := by
    unfold deselectObject
    simp only [hv]
  refine ⟨?_, by rw [hd], by rw [hd], by rw [hd]; rfl, by rw [hd]; rfl,
          by rw [hd]; rfl, ?_⟩
  · rw [hd]
    refine (getPart_parts_eq rfl v).trans ?_
    unfold removePulseAnimation clearSelectionEffect
    refine (getPart_updatePart_self _ v _ ?_).trans ?_
    · intro p
      by_cases hp : p.pulsing <;> simp [hp]
    · have hinner : getPart (updatePart s v (fun p =>
          { p with material := (assocFind s.originalMaterials v).getD p.material,
                   scale := p.originalScale.getD p.scale,
                   hovering := false })) v
          = some { q with material := (assocFind s.originalMaterials v).getD q.material,
                          scale := q.originalScale.getD q.scale,
                          hovering := false } := by
        refine (getPart_updatePart_self _ v _ ?_).trans ?_
        · intro p
          rfl
        · rw [hq]
          rfl
      rw [hinner]
      simp only [Option.map_some']
      by_cases hqp : q.pulsing <;> cases hqo : q.originalScale <;> simp [hrv, hqp, hqo]
  · intro w hw
    rw [hd]
    refine (getPart_parts_eq rfl w).trans ?_
    unfold removePulseAnimation clearSelectionEffect
    refine (getPart_updatePart_other _ v w _ ?_ hw).trans
      ((getPart_updatePart_other _ v w _ (fun p => rfl) hw))
    intro p
    by_cases hp : p.pulsing <;> simp [hp]

theorem clearHover_getPart_selected (s : IState) (u : Nat)
    (hsel : s.selectedObject = some u) :
    getPart (clearHover s) u = getPart s u := by
  cases hh : s.hoveredObject with
  | none => exact clearHover_getPart_of_ne s u (by rw [hh]; simp)
  | some h =>
      by_cases hu2 : h = u
      · rw [clearHover_of_selected s u (hu2 ▸ hh) hsel]
        exact getPart_parts_eq rfl u
      · exact clearHover_getPart_of_ne s u (by rw [hh]; simp [hu2])

/-- Claim C10: the selected object is immune to hover effects.  For any
pointer move, whatever the raycast hit, the part record of the selected
mesh (material reference, scale and flags) and the properties of its
material are left unchanged: `applyHoverEffect` returns early on the
selected object and `clearHover` skips restoration when the hovered
object is the selected one. -/
theorem claim_C10_selected_immune (s : IState) (u : Nat) (p : Part) (hit : Option Nat)
    (hsel : s.selectedObject = some u)
    (hp : getPart s u = some p)
    (hmat : p.material < s.nextRef) :
    getPart (handleHover s hit) u = some p ∧
    getProps (handleHover s hit) p.material = getProps s p.material := by
  have hprops : getProps (handleHover s hit) p.material = getProps s p.material :=
    (HeapExt_runOp M0 s (IOp.move hit)).2.2.1 p.material hmat
  refine ⟨?_, hprops⟩
  cases hit with
  | none => exact (clearHover_getPart_selected s u hsel).trans hp
  | some w =>
      show getPart (handleHover s (some w)) u = some p
      simp only [handleHover]
      by_cases hw : s.hoveredObject = some w
      · rw [if_pos hw]
        exact hp
      · rw [if_neg hw]
        have houter : ∀ t : IState,
            getPart ({ t with cursorPointer := true }) u = getPart t u :=
          fun t => getPart_parts_eq rfl u
        have hc : getPart (clearHover s) u = some p :=
          (clearHover_getPart_selected s u hsel).trans hp
        have hBp : getPart { clearHover s with hoveredObject := some w } u = some p :=
          (getPart_parts_eq rfl u).trans hc
        have hBsel : ({ clearHover s with hoveredObject := some w } : IState).selectedObject
            = some u := (clearHover_selected s).trans hsel
        by_cases hwu : w = u
        · have happ := applyHoverEffect_selected
            { clearHover s with hoveredObject := some w } w (hwu ▸ hBsel)
          exact (houter _).trans ((congrArg (fun t => getPart t u) happ).trans hBp)
        · exact (houter _).trans
            ((applyHoverEffect_getPart_other _ w u (fun h => hwu h.symm)).trans hBp)

/-- Claim C1 (amended): hover transition and restoration.  A pointer
move hitting a non-selected mesh makes it the hovered object and hands
it a freshly cloned material — a new reference, distinct from the
stored original, with blue emissive of intensity 0.4 — and a scale 1.05
times the previous one; a subsequent pointer move hitting nothing hands
the mesh back the material reference stored for it in
`originalMaterials` (the per-mesh clone of its startup material made by
`storeMaterials`, with its properties untouched) and its recorded
original scale. -/
theorem claim_C1_hover_and_restore (s : IState) (u r : Nat) (p : Part)
    (props : MatProps)
    (hfr : heapFresh s)
    (hp : getPart s u = some p)
    (hr : assocFind s.originalMaterials u = some r)
    (hprops : assocFind s.heap r = some props)
    (hsel : s.selectedObject ≠ some u)
    (hhov : s.hoveredObject ≠ some u)
    (hscale : p.scale ≠ ⟨0, 0, 0⟩) :
    (handleHover s (some u)).hoveredObject = some u ∧
    getPart (handleHover s (some u)) u
      = some { p with material := s.nextRef,
                      originalScale := some (p.originalScale.getD p.scale),
                      scale := p.scale.smul (21/20),
                      hovering := true, hoverTime := 0 } ∧
    s.nextRef ≠ r ∧
    getProps (handleHover s (some u)) s.nextRef
      = some { props with emissive := 0x4444FF, emissiveIntensity := 2/5 } ∧
    p.scale.smul (21/20) ≠ p.scale ∧
    (handleHover (handleHover s (some u)) none).hoveredObject = none ∧
    getPart (handleHover (handleHover s (some u)) none) u
      = some { p with material := r,
                      originalScale := some (p.originalScale.getD p.scale),
                      scale := p.originalScale.getD p.scale,
                      hovering := false, hoverTime := 0 } ∧
    getProps (handleHover (handleHover s (some u)) none) r = some props := by
  have hrlt : r < s.nextRef := assocFind_lt_of_fresh hfr hprops
  have hs1 : handleHover s (some u) =
      { applyHoverEffect { clearHover s with hoveredObject := some u } u with
        cursorPointer := true } := by
    simp only [handleHover]
    rw [if_neg hhov]
  set sB : IState := { clearHover s with hoveredObject := some u } with hsBdef
  have hBsel : sB.selectedObject = s.selectedObject := clearHover_selected s
  have hBorig : sB.originalMaterials = s.originalMaterials := clearHover_origMats s
  have hBheap : sB.heap = s.heap := clearHover_heap s
  have hBnext : sB.nextRef = s.nextRef := clearHover_nextRef s
  have hBfr : heapFresh sB := by
    unfold heapFresh
    rw [hBheap, hBnext]
    exact hfr
  have hBp : getPart sB u = some p :=
    (getPart_parts_eq rfl u).trans
      ((clearHover_getPart_of_ne s u hhov).trans hp)
  have hBselne : sB.selectedObject ≠ some u := by
    rw [hBsel]
    exact hsel
  have hBr : assocFind sB.originalMaterials u = some r := by
    rw [hBorig]
    exact hr
  have hBprops : assocFind sB.heap r = some props := by
    rw [hBheap]
    exact hprops
  have happ := applyHoverEffect_found sB u r props hBfr hBselne hBr hBprops
  rw [hBnext] at happ
  have hs1get : getPart (handleHover s (some u)) u
      = some { p with material := s.nextRef,
                      originalScale := some (p.originalScale.getD p.scale),
                      scale := p.scale.smul (21/20),
                      hovering := true, hoverTime := 0 } := by
    rw [hs1]
    refine (getPart_parts_eq rfl u).trans ?_
    rw [happ]
    refine (getPart_updatePart_self _ u _ ?_).trans ?_
    · intro q
      rfl
    · have h2 : getPart
          ({ sB with
             heap := (s.nextRef,
               { props with emissive := 0x4444FF, emissiveIntensity := 2/5 }) :: sB.heap,
             nextRef := s.nextRef + 1 }) u = some p :=
        (getPart_parts_eq rfl u).trans hBp
      rw [h2]
      rfl
  have hs1hov : (handleHover s (some u)).hoveredObject = some u := by
    rw [hs1]
    show (applyHoverEffect sB u).hoveredObject = some u
    rw [applyHoverEffect_hovered]
  have hs1selne : (handleHover s (some u)).selectedObject ≠ some u := by
    rw [hs1]
    show (applyHoverEffect sB u).selectedObject ≠ some u
    rw [applyHoverEffect_selObj, hBsel]
    exact hsel
  have hs1heap : (handleHover s (some u)).heap
      = (s.nextRef,
          { props with emissive := 0x4444FF, emissiveIntensity := 2/5 }) :: sB.heap := by
    rw [hs1]
    show (applyHoverEffect sB u).heap = _
    rw [happ]
    rfl
  have hs1orig : (handleHover s (some u)).originalMaterials = s.originalMaterials := by
    rw [hs1]
    show (applyHoverEffect sB u).originalMaterials = _
    rw [(HeapExt_applyHoverEffect sB u).1, hBorig]
  have hs2 : handleHover (handleHover s (some u)) none
      = clearHover (handleHover s (some u)) := rfl
  have hclr := clearHover_restore (handleHover s (some u)) u hs1hov hs1selne
  have hs2get : getPart (handleHover (handleHover s (some u)) none) u
      = some { p with material := r,
                      originalScale := some (p.originalScale.getD p.scale),
                      scale := p.originalScale.getD p.scale,
                      hovering := false, hoverTime := 0 } := by
    rw [hs2, hclr]
    refine (getPart_parts_eq rfl u).trans ?_
    refine (getPart_updatePart_self _ u _ ?_).trans ?_
    · intro q
      rfl
    · rw [hs1get]
      simp [hs1orig, hr]
  have hs2hov : (handleHover (handleHover s (some u)) none).hoveredObject = none := by
    rw [hs2, hclr]
  have hs2props : getProps (handleHover (handleHover s (some u)) none) r
      = some props := by
    rw [hs2, hclr]
    show assocFind (handleHover s (some u)).heap r = some props
    rw [hs1heap]
    simp only [assocFind_cons]
    rw [if_neg (Nat.ne_of_lt hrlt).symm, hBheap]
    exact hprops
  refine ⟨hs1hov, hs1get, (Nat.ne_of_lt hrlt).symm, ?_,
          smul_2120_ne_self p.scale hscale, hs2hov, hs2get, hs2props⟩
  unfold getProps
  rw [hs1heap]
  simp

/-- Claim C1, counterexample to the literal reading: after hovering the
sample part and moving off it, the part's material is the stored clone
(reference 1) and not the material reference it had at startup
(reference 0, the builder's shared base material). -/
theorem claim_C1_counterexample :
    (getPart sampleInit 0).map Part.material = some 0 ∧
    (getPart (handleHover (handleHover sampleInit (some 0)) none) 0).map Part.material
      ≠ some 0 := by
  constructor
  · decide
  · decide

/-- Claim C4: click selection.  A click hitting a mesh different from
the current selection first clears the previous selection's visual
state (stored material reference and original scale restored, pulse
flag removed), then makes the hit mesh selected with a fresh
selection-tinted clone (blue emissive, intensity 0.5), a started pulse
and a visible info panel; a click hitting nothing clears the selection
entirely and hides the panel. -/
theorem claim_C4_click_selection (s : IState) (u v ru rv : Nat) (p q : Part)
    (pu : MatProps)
    (hfr : heapFresh s)
    (hv : s.selectedObject = some v)
    (hq : getPart s v = some q)
    (hrv : assocFind s.originalMaterials v = some rv)
    (hp : getPart s u = some p)
    (hru : assocFind s.originalMaterials u = some ru)
    (hpu : assocFind s.heap ru = some pu)
    (huv : u ≠ v) :
    (handleClick s (some u)).selectedObject = some u ∧
    (handleClick s (some u)).panelVisible = true ∧
    getPart (handleClick s (some u)) v
      = some { q with material := rv, scale := q.originalScale.getD q.scale,
                      hovering := false, pulsing := false } ∧
    getPart (handleClick s (some u)) u
      = some { p with material := s.nextRef, hovering := false,
                      originalScale := some (p.originalScale.getD p.scale),
                      pulsing := true, pulseTime := 0 } ∧
    getProps (handleClick s (some u)) s.nextRef
      = some { pu with emissive := 0x4444FF, emissiveIntensity := 1/2 } ∧
    (handleClick s none).selectedObject = none ∧
    (handleClick s none).panelVisible = false ∧
    getPart (handleClick s none) v
      = some { q with material := rv, scale := q.originalScale.getD q.scale,
                      hovering := false, pulsing := false } := by
  obtain ⟨d1, d2, d3, d4, d5, d6, d7⟩ := deselect_restore s v rv q hv hq hrv
  have hs : handleClick s (some u)
      = addPulseAnimation
          { applySelectionEffect
              { deselectObject s with selectedObject := some u } u with
            panelVisible := true } u := by
    simp only [handleClick, selectObject]
  set sB : IState := { deselectObject s with selectedObject := some u } with hsBdef
  have hBq : getPart sB u = some p :=
    (getPart_parts_eq rfl u).trans ((d7 u huv).trans hp)
  have hBr : assocFind sB.originalMaterials u = some ru := by
    show assocFind (deselectObject s).originalMaterials u = some ru
    rw [d6]
    exact hru
  have hBheap : sB.heap = s.heap := d4
  have hBnext : sB.nextRef = s.nextRef := d5
  have hBprops : assocFind sB.heap ru = some pu := by
    rw [hBheap]
    exact hpu
  have hBfr : heapFresh sB := by
    unfold heapFresh
    rw [hBheap, hBnext]
    exact hfr
  have happ := applySelectionEffect_found sB u ru pu hBfr hBr hBprops
  rw [hBnext] at happ
  have hgetu : getPart (handleClick s (some u)) u
      = some { p with material := s.nextRef, hovering := false,
                      originalScale := some (p.originalScale.getD p.scale),
                      pulsing := true, pulseTime := 0 } := by
    rw [hs]
    unfold addPulseAnimation
    refine (getPart_updatePart_self _ u _ ?_).trans ?_
    · intro z
      rfl
    · have hmid : getPart ({ applySelectionEffect sB u with panelVisible := true }) u
          = some { p with material := s.nextRef, hovering := false } := by
        refine (getPart_parts_eq rfl u).trans ?_
        rw [happ]
        refine (getPart_updatePart_self _ u _ ?_).trans ?_
        · intro z
          rfl
        · have h2 : getPart
              ({ sB with
                 heap := (s.nextRef,
                   { pu with emissive := 0x4444FF, emissiveIntensity := 1/2 }) :: sB.heap,
                 nextRef := s.nextRef + 1 }) u = some p :=
            (getPart_parts_eq rfl u).trans hBq
          rw [h2]
          rfl
      rw [hmid]
      rfl
  have hheapu : (handleClick s (some u)).heap
      = (s.nextRef,
          { pu with emissive := 0x4444FF, emissiveIntensity := 1/2 }) :: sB.heap := by
    rw [hs]
    show (applySelectionEffect sB u).heap = _
    rw [happ]
    rfl
  refine ⟨?_, ?_, ?_, hgetu, ?_, d2, d3, d1⟩
  · rw [hs]
    show (applySelectionEffect sB u).selectedObject = some u
    rw [applySelectionEffect_selObj]
  · rw [hs]
    rfl
  · rw [hs]
    unfold addPulseAnimation
    refine (getPart_updatePart_other _ u v _ ?_ (fun h => huv h.symm)).trans ?_
    · intro z
      rfl
    · refine (getPart_parts_eq rfl v).trans ?_
      refine (applySelectionEffect_getPart_other sB u v (fun h => huv h.symm)).trans ?_
      exact (getPart_parts_eq rfl v).trans d1
  · unfold getProps
    rw [hheapu]
    simp

/-- Claim C5: the selection pulse is bounded.  While `pulseTime + dt`
stays at or below 6280 ms a pulsing part is rescaled to
`1 + sin(pulseTime * 0.01) * 0.05` times its stored original scale; the
first frame on which the accumulated `pulseTime` exceeds 6280 ms clears
the pulsing flag and restores the stored original scale exactly, so
pulsing never continues past that bound. -/
theorem claim_C5_pulse_bounded (M : MathOps) (s : IState) (u : Nat) (p : Part)
    (os : Vec3) (dt1 dt2 : ℚ)
    (hp : getPart s u = some p)
    (hpul : p.pulsing = true) (hhov : p.hovering = false)
    (hos : p.originalScale = some os)
    (hle : p.pulseTime + dt1 ≤ 6280)
    (hgt : p.pulseTime + dt2 > 6280) :
    getPart (updatePulseAnimations M s dt1) u
      = some { p with
               pulseTime := p.pulseTime + dt1,
               scale := os.smul
                 (1 + M.sin ((p.pulseTime + dt1) * (1/100)) * (1/20)) } ∧
    getPart (updatePulseAnimations M s dt2) u
      = some { p with pulseTime := p.pulseTime + dt2, scale := os, pulsing := false } := by
  constructor
  · rw [getPart_updatePulse, hp]
    have h1 := pulsePartStep_pulsing_le M dt1 p hpul hhov hle
    rw [Option.map_some', h1, hos]
    rfl
  · rw [getPart_updatePulse, hp]
    have h2 := pulsePartStep_pulsing_gt M dt2 p os hpul hhov hos hgt
    rw [Option.map_some', h2]

/-- Claim C7: hover and selection tinting never mutate a previously
allocated material.  Over any sequence of pointer, click, frame, leave
and close-panel events, the `originalMaterials` map is unchanged, the
properties stored at every already-allocated reference (the builder's
shared base materials and the stored startup clones alike) are
unchanged, heap freshness is preserved and references are never
recycled. -/
theorem claim_C7_materials_immutable (M : MathOps) (s : IState) (ops : List IOp)
    (r : Nat) (hfr : heapFresh s) (hr : r < s.nextRef) :
    (runOps M s ops).originalMaterials = s.originalMaterials ∧
    getProps (runOps M s ops) r = getProps s r ∧
    heapFresh (runOps M s ops) ∧
    s.nextRef ≤ (runOps M s ops).nextRef := by
  obtain ⟨m, n, pp, f⟩ := HeapExt_runOps M ops s
  exact ⟨m, pp r hr, f hfr, n⟩

theorem claim_C1_witness :
    (handleHover sampleInit (some 0)).hoveredObject = some 0 ∧
    getPart (handleHover sampleInit (some 0)) 0
      = some { freshPart 0 0 with
               material := sampleInit.nextRef,
               originalScale := some ((freshPart 0 0).originalScale.getD (freshPart 0 0).scale),
               scale := (freshPart 0 0).scale.smul (21/20),
               hovering := true, hoverTime := 0 } ∧
    sampleInit.nextRef ≠ 1 ∧
    getProps (handleHover sampleInit (some 0)) sampleInit.nextRef
      = some { woodProps with emissive := 0x4444FF, emissiveIntensity := 2/5 } ∧
    (freshPart 0 0).scale.smul (21/20) ≠ (freshPart 0 0).scale ∧
    (handleHover (handleHover sampleInit (some 0)) none).hoveredObject = none ∧
    getPart (handleHover (handleHover sampleInit (some 0)) none) 0
      = some { freshPart 0 0 with
               material := 1,
               originalScale := some ((freshPart 0 0).originalScale.getD (freshPart 0 0).scale),
               scale := (freshPart 0 0).originalScale.getD (freshPart 0 0).scale,
               hovering := false, hoverTime := 0 } ∧
    getProps (handleHover (handleHover sampleInit (some 0)) none) 1 = some woodProps :=
  claim_C1_hover_and_restore sampleInit 0 1 (freshPart 0 0) woodProps
    (by decide) rfl rfl rfl (by decide) (by decide) (by decide)

theorem claim_C4_witness :
    (handleClick sampleTwoSel (some 0)).selectedObject = some 0 ∧
    (handleClick sampleTwoSel (some 0)).panelVisible = true ∧
    getPart (handleClick sampleTwoSel (some 0)) 1
      = some { (⟨1, 4, ⟨1, 1, 1⟩, some ⟨1, 1, 1⟩, false, true, 0, 0⟩ : Part) with
               material := 3,
               scale := (⟨1, 4, ⟨1, 1, 1⟩, some ⟨1, 1, 1⟩, false, true, 0, 0⟩
                           : Part).originalScale.getD
                         (⟨1, 4, ⟨1, 1, 1⟩, some ⟨1, 1, 1⟩, false, true, 0, 0⟩
                           : Part).scale,
               hovering := false, pulsing := false } ∧
    getPart (handleClick sampleTwoSel (some 0)) 0
      = some { freshPart 0 0 with
               material := sampleTwoSel.nextRef, hovering := false,
               originalScale := some ((freshPart 0 0).originalScale.getD (freshPart 0 0).scale),
               pulsing := true, pulseTime := 0 } ∧
    getProps (handleClick sampleTwoSel (some 0)) sampleTwoSel.nextRef
      = some { woodProps with emissive := 0x4444FF, emissiveIntensity := 1/2 } ∧
    (handleClick sampleTwoSel none).selectedObject = none ∧
    (handleClick sampleTwoSel none).panelVisible = false ∧
    getPart (handleClick sampleTwoSel none) 1
      = some { (⟨1, 4, ⟨1, 1, 1⟩, some ⟨1, 1, 1⟩, false, true, 0, 0⟩ : Part) with
               material := 3,
               scale := (⟨1, 4, ⟨1, 1, 1⟩, some ⟨1, 1, 1⟩, false, true, 0, 0⟩
                           : Part).originalScale.getD
                         (⟨1, 4, ⟨1, 1, 1⟩, some ⟨1, 1, 1⟩, false, true, 0, 0⟩
                           : Part).scale,
               hovering := false, pulsing := false } :=
  claim_C4_click_selection sampleTwoSel 0 1 2 3 (freshPart 0 0)
    ⟨1, 4, ⟨1, 1, 1⟩, some ⟨1, 1, 1⟩, false, true, 0, 0⟩ woodProps
    (by decide) (by decide) rfl (by decide) rfl (by decide) rfl (by decide)

theorem claim_C5_witness :
    getPart (updatePulseAnimations M0 sampleTwoSel 100) 1
      = some { (⟨1, 4, ⟨1, 1, 1⟩, some ⟨1, 1, 1⟩, false, true, 0, 0⟩ : Part) with
               pulseTime := (⟨1, 4, ⟨1, 1, 1⟩, some ⟨1, 1, 1⟩, false, true, 0, 0⟩
                              : Part).pulseTime + 100,
               scale := (⟨1, 1, 1⟩ : Vec3).smul
                 (1 + M0.sin (((⟨1, 4, ⟨1, 1, 1⟩, some ⟨1, 1, 1⟩, false, true, 0, 0⟩
                                 : Part).pulseTime + 100) * (1/100)) * (1/20)) } ∧
    getPart (updatePulseAnimations M0 sampleTwoSel 7000) 1
      = some { (⟨1, 4, ⟨1, 1, 1⟩, some ⟨1, 1, 1⟩, false, true, 0, 0⟩ : Part) with
               pulseTime := (⟨1, 4, ⟨1, 1, 1⟩, some ⟨1, 1, 1⟩, false, true, 0, 0⟩
                              : Part).pulseTime + 7000,
               scale := (⟨1, 1, 1⟩ : Vec3), pulsing := false } :=
  claim_C5_pulse_bounded M0 sampleTwoSel 1
    ⟨1, 4, ⟨1, 1, 1⟩, some ⟨1, 1, 1⟩, false, true, 0, 0⟩ ⟨1, 1, 1⟩ 100 7000
    rfl rfl rfl rfl (by norm_num) (by norm_num)

theorem claim_C7_witness :
    (runOps M0 sampleInit
        [IOp.move (some 0), IOp.click (some 0), IOp.frame 100,
         IOp.move none, IOp.click none]).originalMaterials
      = sampleInit.originalMaterials ∧
    getProps (runOps M0 sampleInit
        [IOp.move (some 0), IOp.click (some 0), IOp.frame 100,
         IOp.move none, IOp.click none]) 0
      = getProps sampleInit 0 ∧
    heapFresh (runOps M0 sampleInit
        [IOp.move (some 0), IOp.click (some 0), IOp.frame 100,
         IOp.move none, IOp.click none]) ∧
    sampleInit.nextRef ≤ (runOps M0 sampleInit
        [IOp.move (some 0), IOp.click (some 0), IOp.frame 100,
         IOp.move none, IOp.click none]).nextRef :=
  claim_C7_materials_immutable M0 sampleInit
    [IOp.move (some 0), IOp.click (some 0), IOp.frame 100,
     IOp.move none, IOp.click none] 0 (by decide) (by decide)

theorem claim_C10_witness :
    getPart (handleHover sampleTwoSel (some 0)) 1
      = some ⟨1, 4, ⟨1, 1, 1⟩, some ⟨1, 1, 1⟩, false, true, 0, 0⟩ ∧
    getProps (handleHover sampleTwoSel (some 0))
        (⟨1, 4, ⟨1, 1, 1⟩, some ⟨1, 1, 1⟩, false, true, 0, 0⟩ : Part).material
      = getProps sampleTwoSel
        (⟨1, 4, ⟨1, 1, 1⟩, some ⟨1, 1, 1⟩, false, true, 0, 0⟩ : Part).material :=
  claim_C10_selected_immune sampleTwoSel 1
    ⟨1, 4, ⟨1, 1, 1⟩, some ⟨1, 1, 1⟩, false, true, 0, 0⟩ (some 0)
    (by decide) rfl (by decide)

end Interaction

namespace Camera

/-! Characterizations of the camera-animator transitions. -/

theorem update_auto (M : MathOps) (s : CamState) (dt : ℚ)
    (h1 : s.isAutoRotating = true) (h2 : s.userInteracting = false)
    (h3 : s.isMouseDown = false) :
    update M s dt =
      { s with
        controlsEnabled := false,
        currentAngle := s.currentAngle + (s.rotationSpeed * M.pi / 180) * (dt / 1000),
        cameraPos :=
          ⟨s.target.x
             + M.cos (s.currentAngle + (s.rotationSpeed * M.pi / 180) * (dt / 1000))
               * s.radius,
           s.height,
           s.target.z
             + M.sin (s.currentAngle + (s.rotationSpeed * M.pi / 180) * (dt / 1000))
               * s.radius⟩,
        lookTarget := s.target } := by
  unfold update
  rw [h1, h2, h3]
  rfl

theorem update_manual (M : MathOps) (s : CamState) (dt : ℚ)
    (h : (s.isAutoRotating && !s.userInteracting && !s.isMouseDown) = false) :
    update M s dt = { s with controlsEnabled := true } := by
  unfold update
  rw [h]
  rfl

theorem foldl_update_auto (M : MathOps) (dts : List ℚ) :
    ∀ s : CamState, s.isAutoRotating = true → s.userInteracting = false →
      s.isMouseDown = false →
      s.cameraPos = ⟨s.target.x + M.cos s.currentAngle * s.radius, s.height,
                     s.target.z + M.sin s.currentAngle * s.radius⟩ →
      (dts.foldl (update M) s).isAutoRotating = true ∧
      (dts.foldl (update M) s).userInteracting = false ∧
      (dts.foldl (update M) s).isMouseDown = false ∧
      (dts.foldl (update M) s).radius = s.radius ∧
      (dts.foldl (update M) s).height = s.height ∧
      (dts.foldl (update M) s).target = s.target ∧
      (dts.foldl (update M) s).rotationSpeed = s.rotationSpeed ∧
      (dts.foldl (update M) s).currentAngle
        = s.currentAngle + (s.rotationSpeed * M.pi / 180) * (dts.sum / 1000) ∧
      (dts.foldl (update M) s).cameraPos
        = ⟨s.target.x + M.cos ((dts.foldl (update M) s).currentAngle) * s.radius,
           s.height,
           s.target.z + M.sin ((dts.foldl (update M) s).currentAngle) * s.radius⟩ := by
  induction dts with
  | nil =>
      intro s h1 h2 h3 h4
      refine ⟨h1, h2, h3, rfl, rfl, rfl, rfl, by simp, by simpa using h4⟩
  | cons d rest ih =>
      intro s h1 h2 h3 h4
      rw [List.foldl_cons]
      have hu := update_auto M s d h1 h2 h3
      obtain ⟨g1, g2, g3, g4, g5, g6, g7, g8, g9⟩ :=
        ih (update M s d) (by rw [hu]; exact h1) (by rw [hu]; exact h2)
          (by rw [hu]; exact h3) (by rw [hu])
      nth_rewrite 2 [hu] at g4
      nth_rewrite 2 [hu] at g5
      nth_rewrite 2 [hu] at g6
      nth_rewrite 2 [hu] at g7
      refine ⟨g1, g2, g3, g4, g5, g6, g7, ?_, ?_⟩
      · rw [g8, hu]
        show s.currentAngle + (s.rotationSpeed * M.pi / 180) * (d / 1000)
               + (s.rotationSpeed * M.pi / 180) * (rest.sum / 1000)
             = s.currentAngle + (s.rotationSpeed * M.pi / 180) * ((d :: rest).sum / 1000)
        rw [List.sum_cons]
        ring
      · rw [g9, hu]

theorem onMouseMoveCam_fields (t : CamState) :
    (onMouseMoveCam t).userInteracting = t.userInteracting ∧
    (onMouseMoveCam t).wasAutoRotatingBeforeInteraction
      = t.wasAutoRotatingBeforeInteraction ∧
    (onMouseMoveCam t).isMouseDown = t.isMouseDown ∧
    (onMouseMoveCam t).cameraPos = t.cameraPos ∧
    (onMouseMoveCam t).target = t.target ∧
    (onMouseMoveCam t).resumeDelay = t.resumeDelay ∧
    (onMouseMoveCam t).isAutoRotating = t.isAutoRotating := by
  unfold onMouseMoveCam
  split <;> exact ⟨rfl, rfl, rfl, rfl, rfl, rfl, rfl⟩

theorem onMouseMoveCam_iter (k : Nat) : ∀ s : CamState,
    (onMouseMoveCam^[k] s).userInteracting = s.userInteracting ∧
    (onMouseMoveCam^[k] s).wasAutoRotatingBeforeInteraction
      = s.wasAutoRotatingBeforeInteraction ∧
    (onMouseMoveCam^[k] s).isMouseDown = s.isMouseDown ∧
    (onMouseMoveCam^[k] s).cameraPos = s.cameraPos ∧
    (onMouseMoveCam^[k] s).target = s.target ∧
    (onMouseMoveCam^[k] s).resumeDelay = s.resumeDelay ∧
    (onMouseMoveCam^[k] s).isAutoRotating = s.isAutoRotating := by
  induction k with
  | zero => exact fun s => ⟨rfl, rfl, rfl, rfl, rfl, rfl, rfl⟩
  | succ n ih =>
      intro s
      rw [Function.iterate_succ_apply]
      obtain ⟨a1, a2, a3, a4, a5, a6, a7⟩ := ih (onMouseMoveCam s)
      obtain ⟨b1, b2, b3, b4, b5, b6, b7⟩ := onMouseMoveCam_fields s
      exact ⟨a1.trans b1, a2.trans b2, a3.trans b3, a4.trans b4,
             a5.trans b5, a6.trans b6, a7.trans b7⟩

theorem toggleAutoRotation_spec (M : MathOps) (s : CamState) :
    (toggleAutoRotation M s).pendingTimer = none ∧
    (toggleAutoRotation M s).userInteracting = false ∧
    (toggleAutoRotation M s).isAutoRotating = !s.isAutoRotating ∧
    (toggleAutoRotation M s).wasAutoRotatingBeforeInteraction = !s.isAutoRotating := by
  unfold toggleAutoRotation pauseAutoRotation resumeAutoRotation updateCurrentAngle
  cases hb : s.isAutoRotating <;> simp [hb]

theorem runCamEvent_off (M : MathOps) (e : CamEvent) (s : CamState)
    (h1 : s.isAutoRotating = false) (h2 : s.userInteracting = false)
    (h3 : s.wasAutoRotatingBeforeInteraction = false) (h4 : s.pendingTimer = none) :
    (runCamEvent M s e).isAutoRotating = false ∧
    (runCamEvent M s e).userInteracting = false ∧
    (runCamEvent M s e).wasAutoRotatingBeforeInteraction = false ∧
    (runCamEvent M s e).pendingTimer = none := by
  cases e with
  | mouseDown b =>
      simp only [runCamEvent]
      unfold onMouseDown
      by_cases hb : b = 0 <;> simp [hb, h1, h2, h3, h4]
  | mouseMove =>
      simp only [runCamEvent]
      unfold onMouseMoveCam
      split <;> simp [h1, h2, h3, h4]
  | mouseUp b =>
      simp only [runCamEvent]
      unfold onMouseUp
      by_cases hb : b = 0 <;> simp [hb, h1, h2, h3, h4]
  | mouseLeave =>
      simp only [runCamEvent]
      unfold onMouseLeave onMouseUp
      split <;> simp [h1, h2, h3, h4]
  | ctrlStart =>
      simp only [runCamEvent]
      unfold onUserInteractionStart
      simp [h1, h2, h3, h4]
  | ctrlEnd =>
      simp only [runCamEvent]
      unfold onUserInteractionEnd
      simp [h1, h2, h3, h4]
  | ctrlChange =>
      simp only [runCamEvent]
      unfold onUserInteractionChange
      simp [h1, h2, h3, h4]
  | frame dt =>
      simp only [runCamEvent]
      unfold update
      simp [h1, h2, h3, h4]
  | timerFire =>
      simp only [runCamEvent]
      unfold fireTimer
      simp [h1, h2, h3, h4]

theorem runCamEvents_off (M : MathOps) (evs : List CamEvent) :
    ∀ s : CamState, s.isAutoRotating = false → s.userInteracting = false →
      s.wasAutoRotatingBeforeInteraction = false → s.pendingTimer = none →
      (runCamEvents M s evs).isAutoRotating = false ∧
      (runCamEvents M s evs).userInteracting = false ∧
      (runCamEvents M s evs).wasAutoRotatingBeforeInteraction = false ∧
      (runCamEvents M s evs).pendingTimer = none := by
  induction evs with
  | nil => exact fun s h1 h2 h3 h4 => ⟨h1, h2, h3, h4⟩
  | cons e rest ih =>
      intro s h1 h2 h3 h4
      obtain ⟨c1, c2, c3, c4⟩ := runCamEvent_off M e s h1 h2 h3 h4
      exact ih (runCamEvent M s e) c1 c2 c3 c4

theorem lerpVectors_one (a b : Vec3) : Vec3.lerpVectors a b 1 = b := by
  unfold Vec3.lerpVectors
  cases b with
  | mk x y z =>
      simp only [Vec3.mk.injEq]
      refine ⟨by ring, by ring, by ring⟩

theorem easeOutCubic_one : easeOutCubic 1 = 1 := by
  unfold easeOutCubic
  norm_num

/-- Claim C2: drag pauses, release arms the resume timer, and firing
resyncs.  A left-button mouse down while auto-rotating immediately
clears `isAutoRotating`, sets `userInteracting` and cancels any pending
resume timer; after any number of mouse moves, the matching left-button
mouse up arms the resume timer (whose delay field is the 3000 ms
`resumeDelay` set by the constructor); and if that timer fires with no
intervening interaction, auto-rotation turns back on with
`currentAngle`, `radius` and `height` recomputed from the camera's
actual position (`atan2` of the camera-to-target offsets, planar
distance, and camera y). -/
theorem claim_C2_drag_pause_resume (M : MathOps) (s : CamState) (k : Nat)
    (p t : Vec3) (hauto : s.isAutoRotating = true) :
    (onMouseDown s 0).isAutoRotating = false ∧
    (onMouseDown s 0).userInteracting = true ∧
    (onMouseDown s 0).pendingTimer = none ∧
    (onMouseDown s 0).resumeDelay = s.resumeDelay ∧
    (mkCamState M p t).resumeDelay = 3000 ∧
    (onMouseUp (onMouseMoveCam^[k] (onMouseDown s 0)) 0).pendingTimer
      = some TimerKind.mouseUpResume ∧
    (onMouseUp (onMouseMoveCam^[k] (onMouseDown s 0)) 0).isMouseDown = false ∧
    (onMouseUp (onMouseMoveCam^[k] (onMouseDown s 0)) 0).resumeDelay = s.resumeDelay ∧
    (fireTimer M (onMouseUp (onMouseMoveCam^[k] (onMouseDown s 0)) 0)).isAutoRotating
      = true ∧
    (fireTimer M (onMouseUp (onMouseMoveCam^[k] (onMouseDown s 0)) 0)).userInteracting
      = false ∧
    (fireTimer M (onMouseUp (onMouseMoveCam^[k] (onMouseDown s 0)) 0)).currentAngle
      = M.atan2 (s.cameraPos.z - s.target.z) (s.cameraPos.x - s.target.x) ∧
    (fireTimer M (onMouseUp (onMouseMoveCam^[k] (onMouseDown s 0)) 0)).radius
      = M.sqrt ((s.cameraPos.x - s.target.x) * (s.cameraPos.x - s.target.x)
                + (s.cameraPos.z - s.target.z) * (s.cameraPos.z - s.target.z)) ∧
    (fireTimer M (onMouseUp (onMouseMoveCam^[k] (onMouseDown s 0)) 0)).height
      = s.cameraPos.y := by
  have hd : onMouseDown s 0 =
      { s with isMouseDown := true, isDragging := false,
               wasAutoRotatingBeforeInteraction := true,
               isAutoRotating := false, userInteracting := true,
               pendingTimer := none, controlsEnabled := true } := by
    unfold onMouseDown
    simp [hauto]
  obtain ⟨m1, m2, m3, m4, m5, m6, m7⟩ := onMouseMoveCam_iter k (onMouseDown s 0)
  have i1 : (onMouseMoveCam^[k] (onMouseDown s 0)).userInteracting = true :=
    m1.trans (by rw [hd])
  have i2 : (onMouseMoveCam^[k] (onMouseDown s 0)).wasAutoRotatingBeforeInteraction
      = true := m2.trans (by rw [hd])
  have i4 : (onMouseMoveCam^[k] (onMouseDown s 0)).cameraPos = s.cameraPos :=
    m4.trans (by rw [hd])
  have i5 : (onMouseMoveCam^[k] (onMouseDown s 0)).target = s.target :=
    m5.trans (by rw [hd])
  have i6 : (onMouseMoveCam^[k] (onMouseDown s 0)).resumeDelay = s.resumeDelay :=
    m6.trans (by rw [hd])
  have hup : onMouseUp (onMouseMoveCam^[k] (onMouseDown s 0)) 0 =
      { onMouseMoveCam^[k] (onMouseDown s 0) with
        isMouseDown := false, pendingTimer := some TimerKind.mouseUpResume } := by
    unfold onMouseUp
    simp [i1, i2]
  have hfire : fireTimer M (onMouseUp (onMouseMoveCam^[k] (onMouseDown s 0)) 0)
      = updateCurrentAngle M
          { onMouseMoveCam^[k] (onMouseDown s 0) with
            isMouseDown := false, pendingTimer := none,
            userInteracting := false, isDragging := false,
            isAutoRotating := true } := by
    rw [hup]
    rfl
  refine ⟨by rw [hd], by rw [hd], by rw [hd], by rw [hd], rfl,
          by rw [hup], by rw [hup], ?_, by rw [hfire]; rfl, by rw [hfire]; rfl,
          ?_, ?_, ?_⟩
  · rw [hup]
    exact i6
  · rw [hfire]
    show M.atan2
        ((onMouseMoveCam^[k] (onMouseDown s 0)).cameraPos.z
          - (onMouseMoveCam^[k] (onMouseDown s 0)).target.z)
        ((onMouseMoveCam^[k] (onMouseDown s 0)).cameraPos.x
          - (onMouseMoveCam^[k] (onMouseDown s 0)).target.x) = _
    rw [i4, i5]
  · rw [hfire]
    show M.sqrt
        (((onMouseMoveCam^[k] (onMouseDown s 0)).cameraPos.x
            - (onMouseMoveCam^[k] (onMouseDown s 0)).target.x)
          * ((onMouseMoveCam^[k] (onMouseDown s 0)).cameraPos.x
            - (onMouseMoveCam^[k] (onMouseDown s 0)).target.x)
         + ((onMouseMoveCam^[k] (onMouseDown s 0)).cameraPos.z
            - (onMouseMoveCam^[k] (onMouseDown s 0)).target.z)
          * ((onMouseMoveCam^[k] (onMouseDown s 0)).cameraPos.z
            - (onMouseMoveCam^[k] (onMouseDown s 0)).target.z)) = _
    rw [i4, i5]
  · rw [hfire]
    show (onMouseMoveCam^[k] (onMouseDown s 0)).cameraPos.y = _
    rw [i4]

/-- Claim C3: one full rotation period returns the camera to its start.
From any auto-rotating state whose camera sits on its orbit circle, with
the configured 30 deg/s speed, folding `update` over any list of frame
deltas (milliseconds) summing to 12000 advances `currentAngle` by
exactly `2π` and returns the camera position, the radius and the height
to their starting values, given that the modelled `sin`/`cos` are
`2π`-periodic. -/
theorem claim_C3_full_rotation (M : MathOps) (s : CamState) (dts : List ℚ)
    (hcos : ∀ x, M.cos (x + 2 * M.pi) = M.cos x)
    (hsin : ∀ x, M.sin (x + 2 * M.pi) = M.sin x)
    (h1 : s.isAutoRotating = true) (h2 : s.userInteracting = false)
    (h3 : s.isMouseDown = false)
    (hspeed : s.rotationSpeed = 30)
    (hpos : s.cameraPos = ⟨s.target.x + M.cos s.currentAngle * s.radius, s.height,
                           s.target.z + M.sin s.currentAngle * s.radius⟩)
    (hsum : dts.sum = 12000) :
    (dts.foldl (update M) s).currentAngle = s.currentAngle + 2 * M.pi ∧
    (dts.foldl (update M) s).cameraPos = s.cameraPos ∧
    (dts.foldl (update M) s).radius = s.radius ∧
    (dts.foldl (update M) s).height = s.height := by
  obtain ⟨g1, g2, g3, g4, g5, g6, g7, g8, g9⟩ := foldl_update_auto M dts s h1 h2 h3 hpos
  have hangle : (dts.foldl (update M) s).currentAngle = s.currentAngle + 2 * M.pi := by
    rw [g8, hspeed, hsum]
    ring
  refine ⟨hangle, ?_, g4, g5⟩
  rw [g9, hangle, hcos s.currentAngle, hsin s.currentAngle, ← hpos]

/-- Claim C6: after `update`, the auto-rotating state (rotating, no user
interaction, mouse up) has the orbit controls disabled and the camera
repositioned on the circle of radius `radius` around the target at
height `height`, looking at the target; any other state has the
controls enabled.  The squared planar distance statement uses the
Pythagorean identity for the modelled `sin`/`cos`. -/
theorem claim_C6_controls_invariant (M : MathOps) (sa sm : CamState) (dta dtm : ℚ)
    (hpyth : ∀ a, M.cos a * M.cos a + M.sin a * M.sin a = 1)
    (h1 : sa.isAutoRotating = true) (h2 : sa.userInteracting = false)
    (h3 : sa.isMouseDown = false)
    (hm : (sm.isAutoRotating && !sm.userInteracting && !sm.isMouseDown) = false) :
    (update M sa dta).controlsEnabled = false ∧
    (update M sa dta).isAutoRotating = true ∧
    (update M sa dta).userInteracting = false ∧
    (update M sa dta).isMouseDown = false ∧
    (update M sa dta).cameraPos
      = ⟨sa.target.x + M.cos ((update M sa dta).currentAngle) * sa.radius,
         sa.height,
         sa.target.z + M.sin ((update M sa dta).currentAngle) * sa.radius⟩ ∧
    ((update M sa dta).cameraPos.x - sa.target.x)
        * ((update M sa dta).cameraPos.x - sa.target.x)
      + ((update M sa dta).cameraPos.z - sa.target.z)
        * ((update M sa dta).cameraPos.z - sa.target.z)
      = sa.radius * sa.radius ∧
    (update M sa dta).cameraPos.y = sa.height ∧
    (update M sa dta).lookTarget = sa.target ∧
    (update M sm dtm).controlsEnabled = true := by
  have hu := update_auto M sa dta h1 h2 h3
  have hm2 := update_manual M sm dtm hm
  refine ⟨by rw [hu], by rw [hu]; exact h1, by rw [hu]; exact h2, by rw [hu]; exact h3,
          by rw [hu], ?_, by rw [hu], by rw [hu], by rw [hm2]⟩
  rw [hu]
  show (sa.target.x + M.cos (sa.currentAngle + (sa.rotationSpeed * M.pi / 180) * (dta / 1000)) * sa.radius - sa.target.x)
        * (sa.target.x + M.cos (sa.currentAngle + (sa.rotationSpeed * M.pi / 180) * (dta / 1000)) * sa.radius - sa.target.x)
      + (sa.target.z + M.sin (sa.currentAngle + (sa.rotationSpeed * M.pi / 180) * (dta / 1000)) * sa.radius - sa.target.z)
        * (sa.target.z + M.sin (sa.currentAngle + (sa.rotationSpeed * M.pi / 180) * (dta / 1000)) * sa.radius - sa.target.z)
      = sa.radius * sa.radius
  linear_combination (sa.radius * sa.radius)
    * hpyth (sa.currentAngle + (sa.rotationSpeed * M.pi / 180) * (dta / 1000))

/-- Claim C8: `resetCamera` eases the camera from the position captured
at the button press to the stored initial position with the curve
`1 - (1 - progress)^3` over the fixed 1000 ms duration, reaching exactly
the initial position at progress 1; completion sets `currentAngle`,
`radius` and `height` to their stored initial values and re-points the
controls (and the camera) at the target. -/
theorem claim_C8_reset (s : CamState) (e1 e2 : ℚ)
    (h1 : 0 ≤ e1) (h2 : e1 < 1000) (h3 : 1000 ≤ e2) :
    (resetCameraAt s e1).cameraPos
      = Vec3.lerpVectors s.cameraPos s.initialPosition (easeOutCubic (e1 / 1000)) ∧
    (resetCameraAt s e1).currentAngle = s.currentAngle ∧
    (resetCameraAt s e1).lookTarget = s.target ∧
    (resetCameraAt s e2).cameraPos = s.initialPosition ∧
    (resetCameraAt s e2).currentAngle = s.initialAngle ∧
    (resetCameraAt s e2).radius = s.initialRadius ∧
    (resetCameraAt s e2).height = s.initialHeight ∧
    (resetCameraAt s e2).controlsTarget = s.target ∧
    (resetCameraAt s e2).lookTarget = s.target := by
  have hp1 : animProgress e1 = e1 / 1000 := by
    unfold animProgress
    exact min_eq_left ((div_le_one (by norm_num)).mpr h2.le)
  have hlt1 : animProgress e1 < 1 := by
    rw [hp1]
    exact (div_lt_one (by norm_num)).mpr h2
  have hp2 : animProgress e2 = 1 := by
    unfold animProgress
    exact min_eq_right ((le_div_iff₀ (by norm_num)).mpr (by linarith))
  have hfr1 : resetCameraAt s e1 =
      { s with cameraPos := animPosAt s.cameraPos s.initialPosition e1,
               lookTarget := s.target } := by
    unfold resetCameraAt resetAnimFrame
    rw [if_pos hlt1]
  have hfr2 : resetCameraAt s e2 =
      resetOnComplete
        { s with cameraPos := animPosAt s.cameraPos s.initialPosition e2,
                 lookTarget := s.target } := by
    unfold resetCameraAt resetAnimFrame
    rw [hp2, if_neg (lt_irrefl 1)]
  have hpos2 : animPosAt s.cameraPos s.initialPosition e2 = s.initialPosition := by
    unfold animPosAt
    rw [hp2, easeOutCubic_one, lerpVectors_one]
  refine ⟨?_, by rw [hfr1], by rw [hfr1], ?_, by rw [hfr2]; rfl, by rw [hfr2]; rfl,
          by rw [hfr2]; rfl, by rw [hfr2]; rfl, by rw [hfr2]; rfl⟩
  · rw [hfr1]
    show animPosAt s.cameraPos s.initialPosition e1 = _
    unfold animPosAt
    rw [hp1]
  · rw [hfr2]
    show animPosAt s.cameraPos s.initialPosition e2 = s.initialPosition
    exact hpos2

/-- Claim C9: the manual toggle overrides the resume behavior.  Every
`toggleAutoRotation` call cancels any pending resume timer, resets
`userInteracting` and negates `isAutoRotating`; and after toggling an
auto-rotating animator off, no sequence of mouse, orbit-control, frame
or timer events turns auto-rotation back on or arms a resume timer. -/
theorem claim_C9_manual_override (M : MathOps) (s : CamState) (evs : List CamEvent) :
    (toggleAutoRotation M s).pendingTimer = none ∧
    (toggleAutoRotation M s).userInteracting = false ∧
    (toggleAutoRotation M s).isAutoRotating = !s.isAutoRotating ∧
    (s.isAutoRotating = true →
      (runCamEvents M (toggleAutoRotation M s) evs).isAutoRotating = false ∧
      (runCamEvents M (toggleAutoRotation M s) evs).pendingTimer = none) := by
  obtain ⟨t1, t2, t3, t4⟩ := toggleAutoRotation_spec M s
  refine ⟨t1, t2, t3, fun hon => ?_⟩
  have h3a : (toggleAutoRotation M s).isAutoRotating = false := by
    rw [t3, hon]
    rfl
  have h4a : (toggleAutoRotation M s).wasAutoRotatingBeforeInteraction = false := by
    rw [t4, hon]
    rfl
  obtain ⟨c1, c2, c3, c4⟩ := runCamEvents_off M evs (toggleAutoRotation M s) h3a t2 h4a t1
  exact ⟨c1, c4⟩

theorem claim_C2_witness :
    (onMouseDown autoSample 0).isAutoRotating = false ∧
    (onMouseDown autoSample 0).userInteracting = true ∧
    (onMouseDown autoSample 0).pendingTimer = none ∧
    (onMouseDown autoSample 0).resumeDelay = autoSample.resumeDelay ∧
    (mkCamState M0 ⟨5, 3, 5⟩ ⟨0, 1, 0⟩).resumeDelay = 3000 ∧
    (onMouseUp (onMouseMoveCam^[1] (onMouseDown autoSample 0)) 0).pendingTimer
      = some TimerKind.mouseUpResume ∧
    (onMouseUp (onMouseMoveCam^[1] (onMouseDown autoSample 0)) 0).isMouseDown = false ∧
    (onMouseUp (onMouseMoveCam^[1] (onMouseDown autoSample 0)) 0).resumeDelay
      = autoSample.resumeDelay ∧
    (fireTimer M0 (onMouseUp (onMouseMoveCam^[1] (onMouseDown autoSample 0)) 0)).isAutoRotating
      = true ∧
    (fireTimer M0 (onMouseUp (onMouseMoveCam^[1] (onMouseDown autoSample 0)) 0)).userInteracting
      = false ∧
    (fireTimer M0 (onMouseUp (onMouseMoveCam^[1] (onMouseDown autoSample 0)) 0)).currentAngle
      = M0.atan2 (autoSample.cameraPos.z - autoSample.target.z)
          (autoSample.cameraPos.x - autoSample.target.x) ∧
    (fireTimer M0 (onMouseUp (onMouseMoveCam^[1] (onMouseDown autoSample 0)) 0)).radius
      = M0.sqrt ((autoSample.cameraPos.x - autoSample.target.x)
                   * (autoSample.cameraPos.x - autoSample.target.x)
                 + (autoSample.cameraPos.z - autoSample.target.z)
                   * (autoSample.cameraPos.z - autoSample.target.z)) ∧
    (fireTimer M0 (onMouseUp (onMouseMoveCam^[1] (onMouseDown autoSample 0)) 0)).height
      = autoSample.cameraPos.y :=
  claim_C2_drag_pause_resume M0 autoSample 1 ⟨5, 3, 5⟩ ⟨0, 1, 0⟩ rfl

theorem claim_C3_witness :
    (([(12000 : ℚ)]).foldl (update M0) autoSample).currentAngle
      = autoSample.currentAngle + 2 * M0.pi ∧
    (([(12000 : ℚ)]).foldl (update M0) autoSample).cameraPos = autoSample.cameraPos ∧
    (([(12000 : ℚ)]).foldl (update M0) autoSample).radius = autoSample.radius ∧
    (([(12000 : ℚ)]).foldl (update M0) autoSample).height = autoSample.height :=
  claim_C3_full_rotation M0 autoSample [(12000 : ℚ)]
    (fun x => rfl) (fun x => rfl) rfl rfl rfl rfl
    (by norm_num [autoSample, M0, Vec3.mk.injEq]) (by simp)

theorem claim_C6_witness :
    (update M0 autoSample 16).controlsEnabled = false ∧
    (update M0 autoSample 16).isAutoRotating = true ∧
    (update M0 autoSample 16).userInteracting = false ∧
    (update M0 autoSample 16).isMouseDown = false ∧
    (update M0 autoSample 16).cameraPos
      = ⟨autoSample.target.x
           + M0.cos ((update M0 autoSample 16).currentAngle) * autoSample.radius,
         autoSample.height,
         autoSample.target.z
           + M0.sin ((update M0 autoSample 16).currentAngle) * autoSample.radius⟩ ∧
    ((update M0 autoSample 16).cameraPos.x - autoSample.target.x)
        * ((update M0 autoSample 16).cameraPos.x - autoSample.target.x)
      + ((update M0 autoSample 16).cameraPos.z - autoSample.target.z)
        * ((update M0 autoSample 16).cameraPos.z - autoSample.target.z)
      = autoSample.radius * autoSample.radius ∧
    (update M0 autoSample 16).cameraPos.y = autoSample.height ∧
    (update M0 autoSample 16).lookTarget = autoSample.target ∧
    (update M0 manualSample 16).controlsEnabled = true :=
  claim_C6_controls_invariant M0 autoSample manualSample 16 16
    (fun a => by norm_num [M0]) rfl rfl rfl (by decide)

theorem claim_C8_witness :
    (resetCameraAt autoSample 500).cameraPos
      = Vec3.lerpVectors autoSample.cameraPos autoSample.initialPosition
          (easeOutCubic (500 / 1000)) ∧
    (resetCameraAt autoSample 500).currentAngle = autoSample.currentAngle ∧
    (resetCameraAt autoSample 500).lookTarget = autoSample.target ∧
    (resetCameraAt autoSample 1500).cameraPos = autoSample.initialPosition ∧
    (resetCameraAt autoSample 1500).currentAngle = autoSample.initialAngle ∧
    (resetCameraAt autoSample 1500).radius = autoSample.initialRadius ∧
    (resetCameraAt autoSample 1500).height = autoSample.initialHeight ∧
    (resetCameraAt autoSample 1500).controlsTarget = autoSample.target ∧
    (resetCameraAt autoSample 1500).lookTarget = autoSample.target :=
  claim_C8_reset autoSample 500 1500 (by decide) (by decide) (by decide)

theorem claim_C9_witness :
    (toggleAutoRotation M0 autoSample).pendingTimer = none ∧
    (toggleAutoRotation M0 autoSample).userInteracting = false ∧
    (toggleAutoRotation M0 autoSample).isAutoRotating = !autoSample.isAutoRotating ∧
    (runCamEvents M0 (toggleAutoRotation M0 autoSample)
        [CamEvent.mouseDown 0, CamEvent.mouseMove, CamEvent.mouseUp 0,
         CamEvent.timerFire]).isAutoRotating = false ∧
    (runCamEvents M0 (toggleAutoRotation M0 autoSample)
        [CamEvent.mouseDown 0, CamEvent.mouseMove, CamEvent.mouseUp 0,
         CamEvent.timerFire]).pendingTimer = none := by
  obtain ⟨a, b, c, d⟩ := claim_C9_manual_override M0 autoSample
    [CamEvent.mouseDown 0, CamEvent.mouseMove, CamEvent.mouseUp 0, CamEvent.timerFire]
  obtain ⟨d1, d2⟩ := d rfl
  exact ⟨a, b, c, d1, d2⟩

end Camera

end ProductViewer
